import Mathlib

set_option linter.unreachableTactic false
set_option linter.unusedVariables false

/-!
Shallow embedding of the weatherstem CLI core (src/weatherstem.go):

* the sensor-reading normalizer `PopulateWeatherData` (lines 180-251), and
* the configuration resolver `getConfigSettings` / `findConfigSettings`
  (lines 254-324).

Go `float64` values are embedded as exact rationals (`Rat`); the external
collaborators that do not live in this repository (Go's `strconv.ParseFloat`,
`strings.Contains`/`Split`/`SplitAfter`, `compassrose.DegreeToHeading`,
`havers2.Coord.Calc`, `json.Unmarshal`) are modelled from the spec as noted
on their definitions.  Fixed-size Go arrays (`[5]float64` and the like) are
flattened into one field per index, keeping the index in the field name.
-/

namespace Weatherstem

/-- Version of the configuration file layout (source line 28). -/
def configSettingsVersion : String := "3.0"

/-- Mirrors `ReadingInfo` (source lines 124-132): one raw sensor measurement. -/
structure ReadingInfo where
  ID : String
  Sensor : String
  SensorType : String
  TransmitterID : String
  Unit : String
  UnitSymbol : String
  Value : String
  deriving DecidableEq, Inhabited

/-- Mirrors `HiloInfo` (source lines 137-147); the Go field `Type` is
renamed `TypeName` because `Type` is a Lean keyword. -/
structure HiloInfo where
  Name : String
  Minimum : String
  Maximum : String
  MinimumTimestamp : String
  Symbol : String
  MaximumTime : String
  Property : String
  TypeName : String
  Unit : String
  deriving DecidableEq, Inhabited

/-- Mirrors `DomainInfo` (source lines 150-153). -/
structure DomainInfo where
  Name : String
  Handle : String
  deriving DecidableEq, Inhabited

/-- Mirrors `CameraInfo` (source lines 156-159). -/
structure CameraInfo where
  ImageURL : String
  Name : String
  deriving DecidableEq, Inhabited

/-- Mirrors `RecordInfo` (source lines 43-52).  The Go `uint8` field carries
no arithmetic in the program, so it is embedded as `Nat`. -/
structure RecordInfo where
  RecordReadings : List ReadingInfo
  LastRainTime : String
  ReadingsTimestamp : String
  RecordID : String
  RecordHiLo : HiloInfo
  RecordTimestamp : String
  RecordDataDerived : Nat
  StationDown : String
  deriving DecidableEq, Inhabited

/-- Mirrors `StationInfo` (source lines 56-66). -/
structure StationInfo where
  Domain : DomainInfo
  Cameras : List CameraInfo
  Name : String
  Handle : String
  Longitude : String
  Latitude : String
  FacebookID : String
  TwitterID : String
  WundergroundID : String
  deriving DecidableEq, Inhabited

/-- Mirrors `WeatherInfo` (source lines 34-37). -/
structure WeatherInfo where
  WeatherRecord : RecordInfo
  WeatherStation : StationInfo
  deriving DecidableEq, Inhabited

/-- Modelled from the spec: `havers2.Coord`, the external geodesy library's
coordinate type.  Only the latitude/longitude components are represented;
the derived trigonometric cache fields that `Calc` fills are omitted. -/
structure Coord where
  lat : Rat
  lon : Rat
  deriving DecidableEq, Inhabited

/-- Modelled from the spec: `havers2.Coord.Calc` computes the derived
geodesic reference form of a coordinate.  It only fills cache fields not
represented in this model, so on the `(lat, lon)` components it is the
identity. -/
def Coord.Calc (c : Coord) : Coord := c

/-- Mirrors `WeatherData` (source lines 89-102) with fixed-size arrays
flattened: `Temperature[i]` becomes `Temperature<i>`, and so on. -/
structure WeatherData where
  Label : String
  Station0 : String
  Station1 : String
  Station2 : String
  StationTopo : Coord
  StationDist : Rat
  Temperature0 : Rat
  Temperature1 : Rat
  Temperature2 : Rat
  Temperature3 : Rat
  Temperature4 : Rat
  Humidity : Rat
  Windspeed0 : Rat
  Windspeed1 : Rat
  Windspeed2 : Rat
  Wind0 : String
  Wind1 : String
  Pressure : Rat
  PressureTrend : String
  Rain0 : Rat
  Rain1 : Rat
  Sun0 : Rat
  Sun1 : Rat
  deriving DecidableEq, Inhabited

/-- Mirrors the anonymous `StationTopo` struct inside `WeatherUnits`
(source lines 108-111). -/
structure UnitsTopo where
  Lat : String
  Lon : String
  deriving DecidableEq, Inhabited

/-- Mirrors `WeatherUnits` (source lines 105-121), arrays flattened as in
`WeatherData`. -/
structure WeatherUnits where
  Label : String
  Station0 : String
  Station1 : String
  Station2 : String
  StationTopo : UnitsTopo
  StationDist : String
  Temperature0 : String
  Temperature1 : String
  Temperature2 : String
  Temperature3 : String
  Temperature4 : String
  Humidity : String
  Windspeed0 : String
  Windspeed1 : String
  Windspeed2 : String
  Wind0 : String
  Wind1 : String
  Pressure : String
  PressureTrend : String
  Rain0 : String
  Rain1 : String
  Sun0 : String
  Sun1 : String
  deriving DecidableEq, Inhabited

/-- The Go zero value of `WeatherData` (numeric fields 0, strings empty). -/
def zeroWeatherData : WeatherData :=
  { Label := "", Station0 := "", Station1 := "", Station2 := ""
    StationTopo := ⟨0, 0⟩, StationDist := 0
    Temperature0 := 0, Temperature1 := 0, Temperature2 := 0
    Temperature3 := 0, Temperature4 := 0
    Humidity := 0
    Windspeed0 := 0, Windspeed1 := 0, Windspeed2 := 0
    Wind0 := "", Wind1 := ""
    Pressure := 0, PressureTrend := ""
    Rain0 := 0, Rain1 := 0, Sun0 := 0, Sun1 := 0 }

/-- The Go zero value of `WeatherUnits` (all strings empty). -/
def zeroWeatherUnits : WeatherUnits :=
  { Label := "", Station0 := "", Station1 := "", Station2 := ""
    StationTopo := ⟨"", ""⟩, StationDist := ""
    Temperature0 := "", Temperature1 := "", Temperature2 := ""
    Temperature3 := "", Temperature4 := ""
    Humidity := ""
    Windspeed0 := "", Windspeed1 := "", Windspeed2 := ""
    Wind0 := "", Wind1 := ""
    Pressure := "", PressureTrend := ""
    Rain0 := "", Rain1 := "", Sun0 := "", Sun1 := "" }

/-- Numeric value of a list of decimal digit characters. -/
def digitsVal (l : List Char) : Rat :=
  ((l.foldl (fun a c => 10 * a + (c.toNat - 48)) 0 : Nat) : Rat)

/-- Modelled from the spec: Go's `strconv.ParseFloat(s, 64)` restricted to
plain decimal literals (optional sign, integer digits, optional fractional
digits) with the parsed value kept as an exact rational.  `none` is a syntax
error.  Exponent, hexadecimal, `Inf`/`NaN` forms and IEEE-754 rounding are
outside this model; no claim depends on them. -/
def ParseFloat (s : String) : Option Rat :=
  let cs := s.toList
  let sign : Rat := match cs with
    | '-' :: _ => -1
    | _ => 1
  let rest : List Char := match cs with
    | '-' :: t => t
    | '+' :: t => t
    | t => t
  let ip := rest.takeWhile Char.isDigit
  let r1 := rest.dropWhile Char.isDigit
  match r1 with
  | [] => if ip.isEmpty then none else some (sign * digitsVal ip)
  | '.' :: t =>
      let fp := t.takeWhile Char.isDigit
      let r2 := t.dropWhile Char.isDigit
      if ip.isEmpty && fp.isEmpty then none
      else if r2.isEmpty then
        some (sign * (digitsVal ip + digitsVal fp / (10 : Rat) ^ fp.length))
      else none
  | _ => none

/-- The value the Go code keeps when it ignores `ParseFloat`'s error return:
on a syntax error `strconv.ParseFloat` yields 0, so `x, _ = ParseFloat(s)`
leaves `x` at the parsed value or 0. -/
def parseFloatOr0 (s : String) : Rat := (ParseFloat s).getD 0

/-- Modelled from the spec: `compassrose.DegreeToHeading`, the external
compass-heading service converting a degree value into a cardinal
abbreviation plus a full name, with standard or ornate naming chosen by the
flag.  Only its being a pure function of its arguments matters for the
claims; the concrete 8-point table is illustrative. -/
def DegreeToHeading (deg : Rat) (p : Nat) (ornate : Bool) : String × String :=
  let idx : Nat := (((deg.floor + 22) / 45).toNat + p - p) % 8
  let abbrs := ["N", "NE", "E", "SE", "S", "SW", "W", "NW"]
  let plain := ["North", "Northeast", "East", "Southeast",
                "South", "Southwest", "West", "Northwest"]
  let fancy := ["Tramontana", "Greco", "Levante", "Scirocco",
                "Ostro", "Libeccio", "Ponente", "Maestro"]
  (abbrs.getD idx "N", (if ornate then fancy else plain).getD idx "North")

/-- The 15 sensor-type labels recognized by the normalizer's dispatch chain
(source lines 197-247, in source order). -/
def knownSensorTypes : List String :=
  ["Thermometer", "Dewpoint", "Wet Bulb Globe Temperature", "Wind Chill",
   "Heat Index", "Hygrometer", "Anemometer", "10 Minute Wind Gust",
   "Wind Vane", "Barometer", "Barometer Tendency", "Rain Gauge",
   "Rain Rate", "Solar Radiation Sensor", "UV Radiation Sensor"]

/-- Body of the `Thermometer` branch (source lines 197-199). -/
def updThermometer (st : WeatherData × WeatherUnits) (val : ReadingInfo) :
    WeatherData × WeatherUnits :=
  ({ st.1 with Temperature0 := parseFloatOr0 val.Value },
   { st.2 with Temperature0 := val.UnitSymbol })

/-- Body of the `Dewpoint` branch (source lines 200-202). -/
def updDewpoint (st : WeatherData × WeatherUnits) (val : ReadingInfo) :
    WeatherData × WeatherUnits :=
  ({ st.1 with Temperature1 := parseFloatOr0 val.Value },
   { st.2 with Temperature1 := val.UnitSymbol })

/-- Body of the `Wet Bulb Globe Temperature` branch (source lines 203-205). -/
def updWetBulb (st : WeatherData × WeatherUnits) (val : ReadingInfo) :
    WeatherData × WeatherUnits :=
  ({ st.1 with Temperature2 := parseFloatOr0 val.Value },
   { st.2 with Temperature2 := val.UnitSymbol })

/-- Body of the `Wind Chill` branch (source lines 206-208). -/
def updWindChill (st : WeatherData × WeatherUnits) (val : ReadingInfo) :
    WeatherData × WeatherUnits :=
  ({ st.1 with Temperature3 := parseFloatOr0 val.Value },
   { st.2 with Temperature3 := val.UnitSymbol })

/-- Body of the `Heat Index` branch (source lines 209-211). -/
def updHeatIndex (st : WeatherData × WeatherUnits) (val : ReadingInfo) :
    WeatherData × WeatherUnits :=
  ({ st.1 with Temperature4 := parseFloatOr0 val.Value },
   { st.2 with Temperature4 := val.UnitSymbol })

/-- Body of the `Hygrometer` branch (source lines 212-214). -/
def updHygrometer (st : WeatherData × WeatherUnits) (val : ReadingInfo) :
    WeatherData × WeatherUnits :=
  ({ st.1 with Humidity := parseFloatOr0 val.Value },
   { st.2 with Humidity := val.UnitSymbol })

/-- Body of the `Anemometer` branch (source lines 215-217). -/
def updAnemometer (st : WeatherData × WeatherUnits) (val : ReadingInfo) :
    WeatherData × WeatherUnits :=
  ({ st.1 with Windspeed0 := parseFloatOr0 val.Value },
   { st.2 with Windspeed0 := val.UnitSymbol })

/-- Body of the `10 Minute Wind Gust` branch (source lines 218-220). -/
def updWindGust (st : WeatherData × WeatherUnits) (val : ReadingInfo) :
    WeatherData × WeatherUnits :=
  ({ st.1 with Windspeed1 := parseFloatOr0 val.Value },
   { st.2 with Windspeed1 := val.UnitSymbol })

/-- Body of the `Wind Vane` branch (source lines 221-228): store the degree
value and its unit, then derive the two-part compass heading from the value
just stored, with the ornate rose selected by the `rose` flag. -/
def updWindVane (rose : Bool) (st : WeatherData × WeatherUnits)
    (val : ReadingInfo) : WeatherData × WeatherUnits :=
  ({ st.1 with
      Windspeed2 := parseFloatOr0 val.Value
      Wind0 := (if rose then DegreeToHeading (parseFloatOr0 val.Value) 3 true
                else DegreeToHeading (parseFloatOr0 val.Value) 3 false).1
      Wind1 := (if rose then DegreeToHeading (parseFloatOr0 val.Value) 3 true
                else DegreeToHeading (parseFloatOr0 val.Value) 3 false).2 },
   { st.2 with Windspeed2 := val.UnitSymbol })

/-- Body of the `Barometer` branch (source lines 229-231). -/
def updBarometer (st : WeatherData × WeatherUnits) (val : ReadingInfo) :
    WeatherData × WeatherUnits :=
  ({ st.1 with Pressure := parseFloatOr0 val.Value },
   { st.2 with Pressure := val.UnitSymbol })

/-- Body of the `Barometer Tendency` branch (source lines 232-234): the
value is categorical, copied raw rather than parsed. -/
def updBarometerTendency (st : WeatherData × WeatherUnits)
    (val : ReadingInfo) : WeatherData × WeatherUnits :=
  ({ st.1 with PressureTrend := val.Value },
   { st.2 with PressureTrend := val.UnitSymbol })

/-- Body of the `Rain Gauge` branch (source lines 235-237). -/
def updRainGauge (st : WeatherData × WeatherUnits) (val : ReadingInfo) :
    WeatherData × WeatherUnits :=
  ({ st.1 with Rain0 := parseFloatOr0 val.Value },
   { st.2 with Rain0 := val.UnitSymbol })

/-- Body of the `Rain Rate` branch (source lines 238-240). -/
def updRainRate (st : WeatherData × WeatherUnits) (val : ReadingInfo) :
    WeatherData × WeatherUnits :=
  ({ st.1 with Rain1 := parseFloatOr0 val.Value },
   { st.2 with Rain1 := val.UnitSymbol })

/-- Body of the `Solar Radiation Sensor` branch (source lines 241-243). -/
def updSolar (st : WeatherData × WeatherUnits) (val : ReadingInfo) :
    WeatherData × WeatherUnits :=
  ({ st.1 with Sun0 := parseFloatOr0 val.Value },
   { st.2 with Sun0 := val.UnitSymbol })

/-- Body of the `UV Radiation Sensor` branch (source lines 244-246). -/
def updUV (st : WeatherData × WeatherUnits) (val : ReadingInfo) :
    WeatherData × WeatherUnits :=
  ({ st.1 with Sun1 := parseFloatOr0 val.Value },
   { st.2 with Sun1 := val.UnitSymbol })

/-- One iteration of the reading loop of `PopulateWeatherData` (source lines
196-248): dispatch on the reading's `sensor_type` and update the matching
slot pair; an unknown label leaves the state unchanged. -/
def processReading (rose : Bool) (st : WeatherData × WeatherUnits)
    (val : ReadingInfo) : WeatherData × WeatherUnits :=
  if val.SensorType == "Thermometer" then updThermometer st val
  else if val.SensorType == "Dewpoint" then updDewpoint st val
  else if val.SensorType == "Wet Bulb Globe Temperature" then updWetBulb st val
  else if val.SensorType == "Wind Chill" then updWindChill st val
  else if val.SensorType == "Heat Index" then updHeatIndex st val
  else if val.SensorType == "Hygrometer" then updHygrometer st val
  else if val.SensorType == "Anemometer" then updAnemometer st val
  else if val.SensorType == "10 Minute Wind Gust" then updWindGust st val
  else if val.SensorType == "Wind Vane" then updWindVane rose st val
  else if val.SensorType == "Barometer" then updBarometer st val
  else if val.SensorType == "Barometer Tendency" then updBarometerTendency st val
  else if val.SensorType == "Rain Gauge" then updRainGauge st val
  else if val.SensorType == "Rain Rate" then updRainRate st val
  else if val.SensorType == "Solar Radiation Sensor" then updSolar st val
  else if val.SensorType == "UV Radiation Sensor" then updUV st val
  else (st.1, st.2)

/-- The `wdata` value of `PopulateWeatherData` before the reading loop runs
(source lines 181-188): identity fields, parsed station coordinate (zero on
parse failure, the ignored-error idiom), and the placeholder distance. -/
def initialWeatherData (winfo : WeatherInfo) : WeatherData :=
  { zeroWeatherData with
    Label := "data"
    Station0 := winfo.WeatherStation.Handle
    Station1 := winfo.WeatherStation.Name
    Station2 := winfo.WeatherRecord.ReadingsTimestamp
    StationTopo :=
      Coord.Calc ⟨parseFloatOr0 winfo.WeatherStation.Latitude,
                  parseFloatOr0 winfo.WeatherStation.Longitude⟩
    StationDist := 2.4 }

/-- The `wunits` value of `PopulateWeatherData` before the reading loop runs
(source lines 189-194). -/
def initialWeatherUnits (winfo : WeatherInfo) : WeatherUnits :=
  { zeroWeatherUnits with
    Label := "units"
    Station0 := winfo.WeatherStation.Handle
    Station1 := winfo.WeatherStation.Name
    Station2 := winfo.WeatherRecord.ReadingsTimestamp
    StationTopo := ⟨"&deg;", "&deg;"⟩ }

/-- Mirrors `PopulateWeatherData` (source lines 180-251): initialize the
identity, coordinate and distance fields, then fold the reading loop over
the record's readings. -/
def PopulateWeatherData (winfo : WeatherInfo) (rose : Bool) :
    WeatherData × WeatherUnits :=
  winfo.WeatherRecord.RecordReadings.foldl (processReading rose)
    (initialWeatherData winfo, initialWeatherUnits winfo)

/-- Mirrors `configSettings` (source lines 170-176): the API user config. -/
structure configSettings where
  Version : String
  URL : String
  Key : String
  Stations : List String
  Me : Coord
  deriving DecidableEq, Inhabited

/-- Go's bytewise lexicographic character-list comparison.  On UTF-8 encoded
text, bytewise order of the encodings coincides with code-point order, so
comparing `Char` sequences is faithful to Go's `string` `<=`. -/
def goLeChars : List Char → List Char → Bool
  | [], _ => true
  | _ :: _, [] => false
  | a :: as, b :: bs =>
      if a < b then true else if b < a then false else goLeChars as bs

/-- Modelled from the spec: Go's built-in `string` comparison `<=`
(bytewise lexicographic). -/
def goStringLe (a b : String) : Bool := goLeChars a.toList b.toList

/-- Modelled from the spec: Go's `strings.Contains`: does `sub` occur as a
contiguous substring of `s`? -/
def goContains (s sub : List Char) : Bool :=
  match s with
  | [] => sub.isEmpty
  | _ :: rest => sub.isPrefixOf s || goContains rest sub

/-- Modelled from the spec: Go's `strings.Split(s, sep)` for a non-empty
separator: cut `s` around each leftmost non-overlapping occurrence of
`sep`, dropping the separators. -/
def goSplit (sep : List Char) : List Char → List (List Char)
  | [] => [[]]
  | c :: rest =>
      if sep.isPrefixOf (c :: rest) && !sep.isEmpty then
        [] :: goSplit sep (rest.drop (sep.length - 1))
      else
        match goSplit sep rest with
        | [] => [[c]]
        | p :: ps => (c :: p) :: ps
termination_by s => s.length
decreasing_by
  · simp only [List.length_cons, List.length_drop]
    omega
  · simp only [List.length_cons]
    omega

/-- String wrapper for `goSplit`. -/
def goSplitStr (s sep : String) : List String :=
  (goSplit sep.toList s.toList).map fun l => ⟨l⟩

/-- The version-sniffing phase of `getConfigSettings` (source lines
287-296): if the raw text contains `version`, take `strings.SplitAfter`'s
second piece around the quoted key `"version"`, split it at double quotes
and take the second piece; a missing `version` marker or an out-of-range
index is a panic (`log.Panicln` or a Go runtime index panic). -/
def extractVersion (configJSON : String) : Except String String :=
  if goContains configJSON.toList "version".toList then
    match goSplitStr configJSON "\"version\"" with
    | _ :: p1 :: rest =>
        let seg := if rest.isEmpty then p1 else p1 ++ "\"version\""
        match goSplitStr seg "\"" with
        | _ :: v :: _ => Except.ok v
        | _ => Except.error "runtime error: index out of range"
    | _ => Except.error "runtime error: index out of range"
  else
    Except.error "No version in config file."

/-- Outcome of the config-loading routines: `openError` models a non-nil
`error` returned from a failed `os.Open` (the only non-panicking failure);
`panicked` models `log.Panic*` and runtime panics; `ok` carries the loaded
config. -/
inductive ConfigOutcome where
  | openError : ConfigOutcome
  | panicked : String → ConfigOutcome
  | ok : configSettings → ConfigOutcome
  deriving DecidableEq

/-- The `config.Me.Calc()` call at source line 321 (identity on the modelled
fields, see `Coord.Calc`). -/
def calcMe (c : configSettings) : configSettings := { c with Me := c.Me.Calc }

/-- The first migration warning line (source line 304), with the two `%s`
verbs substituted. -/
def warnLine1 (v : String) : String :=
  "WARNING: Using a version " ++ v ++ " config file in a version " ++
    configSettingsVersion ++ " app.\n"

/-- The second migration warning line (source line 305). -/
def warnLine2 : String :=
  "Version 2 added your geolocation. Your location could become NYC.\n"

/-- The third migration warning line (source line 306); the quote marks of
the original text are omitted. -/
def warnLine3 : String :=
  "Version 3 uses the Aug 2020 API v1 station@domain.weatherstem.com syntax.\n"

/-- Mirrors `getConfigSettings` (source lines 274-324).  The file system is
abstracted into `content` (`none` models a failed `os.Open`); structural
JSON decoding is abstracted into the caller-supplied `unmarshal` (`none`
models a `json.Unmarshal` error), modelled from the spec since
`json-iterator` is an external collaborator.  The second component collects
the operator-visible `log.Printf` warnings. -/
def getConfigSettings (unmarshal : String → Option configSettings)
    (content : Option String) : ConfigOutcome × List String :=
  match content with
  | none => (ConfigOutcome.openError, [])
  | some configJSON =>
    match extractVersion configJSON with
    | Except.error msg => (ConfigOutcome.panicked msg, [])
    | Except.ok configVersion =>
      if configVersion = configSettingsVersion then
        match unmarshal configJSON with
        | none => (ConfigOutcome.panicked "Cannot unmarshal config", [])
        | some config => (ConfigOutcome.ok (calcMe config), [])
      else if goStringLe configVersion configSettingsVersion then
        let warns := [warnLine1 configVersion, warnLine2, warnLine3]
        match unmarshal configJSON with
        | none => (ConfigOutcome.panicked "Cannot unmarshal config", warns)
        | some config =>
          let config :=
            if config.Me.lat = 0 then
              { config with Me := { config.Me with lat := 40.7678 } }
            else config
          let config :=
            if config.Me.lon = 0 then
              { config with Me := { config.Me with lon := -73.9814 } }
            else config
          (ConfigOutcome.ok (calcMe config), warns)
      else
        (ConfigOutcome.panicked
          ("Config version mismatch, " ++ configVersion ++ " should be " ++
            configSettingsVersion), [])

/-- The candidate-probing loop of `findConfigSettings` (source lines
263-270): try each file in order; a failed open moves on to the next
candidate, any other outcome (success or panic) is final; when every
candidate fails to open, the last open error is returned. -/
def probeFiles (unmarshal : String → Option configSettings)
    (fs : String → Option String) : List String → ConfigOutcome × List String
  | [] => (ConfigOutcome.openError, [])
  | c :: rest =>
      match getConfigSettings unmarshal (fs c) with
      | (ConfigOutcome.openError, _) => probeFiles unmarshal fs rest
      | r => r

/-- Mirrors `findConfigSettings` (source lines 254-271).  `home` is the
value of the `HOME` environment variable (`none` when unset, in which case
the Go `[3]string` array keeps two zero-value empty paths); `fs` abstracts
the file system, mapping a path to its content or `none` when the file
cannot be opened. -/
def findConfigSettings (unmarshal : String → Option configSettings)
    (home : Option String) (fs : String → Option String) :
    ConfigOutcome × List String :=
  let usualFiles : List String :=
    match home with
    | some home =>
        ["weatherstem.json", home ++ "/.weatherstem.json",
         home ++ "/.config/weatherstem.json"]
    | none => ["weatherstem.json", "", ""]
  probeFiles unmarshal fs usualFiles

/-! ### Generic slot lemmas for the reading loop

Every slot of the result of the reading loop is characterized by a
projection `g` that commutes with one loop iteration: the iteration either
writes `h r` into the slot (when the reading's label matches) or leaves it
alone.  Folding then amounts to a fold over the filtered readings, which
immediately gives the empty / exactly-one / exactly-two cases used by the
claims. -/

theorem slot_foldl {α : Type} (rose : Bool) (g : WeatherData × WeatherUnits → α)
    (p : ReadingInfo → Bool) (h : ReadingInfo → α)
    (step : ∀ st r, g (processReading rose st r) = if p r then h r else g st) :
    ∀ (rs : List ReadingInfo) (st : WeatherData × WeatherUnits),
      g (rs.foldl (processReading rose) st) =
        (rs.filter p).foldl (fun _ r => h r) (g st) := by
  intro rs
  induction rs with
  | nil => intro st; rfl
  | cons r rs ih =>
      intro st
      rw [List.foldl_cons, ih, step]
      by_cases hp : p r
      · simp [hp, List.filter_cons]
      · simp [hp, List.filter_cons]

theorem slot_foldl_nil {α : Type} (rose : Bool)
    (g : WeatherData × WeatherUnits → α)
    (p : ReadingInfo → Bool) (h : ReadingInfo → α)
    (step : ∀ st r, g (processReading rose st r) = if p r then h r else g st)
    (rs : List ReadingInfo) (st : WeatherData × WeatherUnits)
    (hf : rs.filter p = []) : g (rs.foldl (processReading rose) st) = g st := by
  rw [slot_foldl rose g p h step rs st, hf]
  rfl

theorem slot_foldl_one {α : Type} (rose : Bool)
    (g : WeatherData × WeatherUnits → α)
    (p : ReadingInfo → Bool) (h : ReadingInfo → α)
    (step : ∀ st r, g (processReading rose st r) = if p r then h r else g st)
    (rs : List ReadingInfo) (st : WeatherData × WeatherUnits) (r1 : ReadingInfo)
    (hf : rs.filter p = [r1]) : g (rs.foldl (processReading rose) st) = h r1 := by
  rw [slot_foldl rose g p h step rs st, hf]
  rfl

theorem slot_foldl_two {α : Type} (rose : Bool)
    (g : WeatherData × WeatherUnits → α)
    (p : ReadingInfo → Bool) (h : ReadingInfo → α)
    (step : ∀ st r, g (processReading rose st r) = if p r then h r else g st)
    (rs : List ReadingInfo) (st : WeatherData × WeatherUnits)
    (r1 r2 : ReadingInfo)
    (hf : rs.filter p = [r1, r2]) :
    g (rs.foldl (processReading rose) st) = h r2 := by
  rw [slot_foldl rose g p h step rs st, hf]
  rfl

/-- One loop iteration writes the `Thermometer` data slot exactly when the
reading carries that label. -/
theorem stepD_temp0 (rose : Bool) (st : WeatherData × WeatherUnits)
    (r : ReadingInfo) :
    (processReading rose st r).1.Temperature0 =
      if r.SensorType == "Thermometer" then parseFloatOr0 r.Value
      else st.1.Temperature0 := by
  unfold processReading
  cases hb1 : (r.SensorType == "Thermometer")
  case true => first
    | rfl
    | (rw [eq_of_beq hb1]; rfl)
  case false =>
    cases hb2 : (r.SensorType == "Dewpoint")
    case true => first
      | rfl
      | (rw [eq_of_beq hb2]; rfl)
    case false =>
      cases hb3 : (r.SensorType == "Wet Bulb Globe Temperature")
      case true => first
        | rfl
        | (rw [eq_of_beq hb3]; rfl)
      case false =>
        cases hb4 : (r.SensorType == "Wind Chill")
        case true => first
          | rfl
          | (rw [eq_of_beq hb4]; rfl)
        case false =>
          cases hb5 : (r.SensorType == "Heat Index")
          case true => first
            | rfl
            | (rw [eq_of_beq hb5]; rfl)
          case false =>
            cases hb6 : (r.SensorType == "Hygrometer")
            case true => first
              | rfl
              | (rw [eq_of_beq hb6]; rfl)
            case false =>
              cases hb7 : (r.SensorType == "Anemometer")
              case true => first
                | rfl
                | (rw [eq_of_beq hb7]; rfl)
              case false =>
                cases hb8 : (r.SensorType == "10 Minute Wind Gust")
                case true => first
                  | rfl
                  | (rw [eq_of_beq hb8]; rfl)
                case false =>
                  cases hb9 : (r.SensorType == "Wind Vane")
                  case true => first
                    | rfl
                    | (rw [eq_of_beq hb9]; rfl)
                  case false =>
                    cases hb10 : (r.SensorType == "Barometer")
                    case true => first
                      | rfl
                      | (rw [eq_of_beq hb10]; rfl)
                    case false =>
                      cases hb11 : (r.SensorType == "Barometer Tendency")
                      case true => first
                        | rfl
                        | (rw [eq_of_beq hb11]; rfl)
                      case false =>
                        cases hb12 : (r.SensorType == "Rain Gauge")
                        case true => first
                          | rfl
                          | (rw [eq_of_beq hb12]; rfl)
                        case false =>
                          cases hb13 : (r.SensorType == "Rain Rate")
                          case true => first
                            | rfl
                            | (rw [eq_of_beq hb13]; rfl)
                          case false =>
                            cases hb14 : (r.SensorType == "Solar Radiation Sensor")
                            case true => first
                              | rfl
                              | (rw [eq_of_beq hb14]; rfl)
                            case false =>
                              cases hb15 : (r.SensorType == "UV Radiation Sensor")
                              case true => first
                                | rfl
                                | (rw [eq_of_beq hb15]; rfl)
                              case false => rfl

/-- One loop iteration writes the `Thermometer` unit slot exactly when the
reading carries that label. -/
theorem stepU_temp0 (rose : Bool) (st : WeatherData × WeatherUnits)
    (r : ReadingInfo) :
    (processReading rose st r).2.Temperature0 =
      if r.SensorType == "Thermometer" then r.UnitSymbol
      else st.2.Temperature0 := by
  unfold processReading
  cases hb1 : (r.SensorType == "Thermometer")
  case true => first
    | rfl
    | (rw [eq_of_beq hb1]; rfl)
  case false =>
    cases hb2 : (r.SensorType == "Dewpoint")
    case true => first
      | rfl
      | (rw [eq_of_beq hb2]; rfl)
    case false =>
      cases hb3 : (r.SensorType == "Wet Bulb Globe Temperature")
      case true => first
        | rfl
        | (rw [eq_of_beq hb3]; rfl)
      case false =>
        cases hb4 : (r.SensorType == "Wind Chill")
        case true => first
          | rfl
          | (rw [eq_of_beq hb4]; rfl)
        case false =>
          cases hb5 : (r.SensorType == "Heat Index")
          case true => first
            | rfl
            | (rw [eq_of_beq hb5]; rfl)
          case false =>
            cases hb6 : (r.SensorType == "Hygrometer")
            case true => first
              | rfl
              | (rw [eq_of_beq hb6]; rfl)
            case false =>
              cases hb7 : (r.SensorType == "Anemometer")
              case true => first
                | rfl
                | (rw [eq_of_beq hb7]; rfl)
              case false =>
                cases hb8 : (r.SensorType == "10 Minute Wind Gust")
                case true => first
                  | rfl
                  | (rw [eq_of_beq hb8]; rfl)
                case false =>
                  cases hb9 : (r.SensorType == "Wind Vane")
                  case true => first
                    | rfl
                    | (rw [eq_of_beq hb9]; rfl)
                  case false =>
                    cases hb10 : (r.SensorType == "Barometer")
                    case true => first
                      | rfl
                      | (rw [eq_of_beq hb10]; rfl)
                    case false =>
                      cases hb11 : (r.SensorType == "Barometer Tendency")
                      case true => first
                        | rfl
                        | (rw [eq_of_beq hb11]; rfl)
                      case false =>
                        cases hb12 : (r.SensorType == "Rain Gauge")
                        case true => first
                          | rfl
                          | (rw [eq_of_beq hb12]; rfl)
                        case false =>
                          cases hb13 : (r.SensorType == "Rain Rate")
                          case true => first
                            | rfl
                            | (rw [eq_of_beq hb13]; rfl)
                          case false =>
                            cases hb14 : (r.SensorType == "Solar Radiation Sensor")
                            case true => first
                              | rfl
                              | (rw [eq_of_beq hb14]; rfl)
                            case false =>
                              cases hb15 : (r.SensorType == "UV Radiation Sensor")
                              case true => first
                                | rfl
                                | (rw [eq_of_beq hb15]; rfl)
                              case false => rfl

/-- One loop iteration writes the `Dewpoint` data slot exactly when the
reading carries that label. -/
theorem stepD_temp1 (rose : Bool) (st : WeatherData × WeatherUnits)
    (r : ReadingInfo) :
    (processReading rose st r).1.Temperature1 =
      if r.SensorType == "Dewpoint" then parseFloatOr0 r.Value
      else st.1.Temperature1 := by
  unfold processReading
  cases hb1 : (r.SensorType == "Thermometer")
  case true => first
    | rfl
    | (rw [eq_of_beq hb1]; rfl)
  case false =>
    cases hb2 : (r.SensorType == "Dewpoint")
    case true => first
      | rfl
      | (rw [eq_of_beq hb2]; rfl)
    case false =>
      cases hb3 : (r.SensorType == "Wet Bulb Globe Temperature")
      case true => first
        | rfl
        | (rw [eq_of_beq hb3]; rfl)
      case false =>
        cases hb4 : (r.SensorType == "Wind Chill")
        case true => first
          | rfl
          | (rw [eq_of_beq hb4]; rfl)
        case false =>
          cases hb5 : (r.SensorType == "Heat Index")
          case true => first
            | rfl
            | (rw [eq_of_beq hb5]; rfl)
          case false =>
            cases hb6 : (r.SensorType == "Hygrometer")
            case true => first
              | rfl
              | (rw [eq_of_beq hb6]; rfl)
            case false =>
              cases hb7 : (r.SensorType == "Anemometer")
              case true => first
                | rfl
                | (rw [eq_of_beq hb7]; rfl)
              case false =>
                cases hb8 : (r.SensorType == "10 Minute Wind Gust")
                case true => first
                  | rfl
                  | (rw [eq_of_beq hb8]; rfl)
                case false =>
                  cases hb9 : (r.SensorType == "Wind Vane")
                  case true => first
                    | rfl
                    | (rw [eq_of_beq hb9]; rfl)
                  case false =>
                    cases hb10 : (r.SensorType == "Barometer")
                    case true => first
                      | rfl
                      | (rw [eq_of_beq hb10]; rfl)
                    case false =>
                      cases hb11 : (r.SensorType == "Barometer Tendency")
                      case true => first
                        | rfl
                        | (rw [eq_of_beq hb11]; rfl)
                      case false =>
                        cases hb12 : (r.SensorType == "Rain Gauge")
                        case true => first
                          | rfl
                          | (rw [eq_of_beq hb12]; rfl)
                        case false =>
                          cases hb13 : (r.SensorType == "Rain Rate")
                          case true => first
                            | rfl
                            | (rw [eq_of_beq hb13]; rfl)
                          case false =>
                            cases hb14 : (r.SensorType == "Solar Radiation Sensor")
                            case true => first
                              | rfl
                              | (rw [eq_of_beq hb14]; rfl)
                            case false =>
                              cases hb15 : (r.SensorType == "UV Radiation Sensor")
                              case true => first
                                | rfl
                                | (rw [eq_of_beq hb15]; rfl)
                              case false => rfl

/-- One loop iteration writes the `Dewpoint` unit slot exactly when the
reading carries that label. -/
theorem stepU_temp1 (rose : Bool) (st : WeatherData × WeatherUnits)
    (r : ReadingInfo) :
    (processReading rose st r).2.Temperature1 =
      if r.SensorType == "Dewpoint" then r.UnitSymbol
      else st.2.Temperature1 := by
  unfold processReading
  cases hb1 : (r.SensorType == "Thermometer")
  case true => first
    | rfl
    | (rw [eq_of_beq hb1]; rfl)
  case false =>
    cases hb2 : (r.SensorType == "Dewpoint")
    case true => first
      | rfl
      | (rw [eq_of_beq hb2]; rfl)
    case false =>
      cases hb3 : (r.SensorType == "Wet Bulb Globe Temperature")
      case true => first
        | rfl
        | (rw [eq_of_beq hb3]; rfl)
      case false =>
        cases hb4 : (r.SensorType == "Wind Chill")
        case true => first
          | rfl
          | (rw [eq_of_beq hb4]; rfl)
        case false =>
          cases hb5 : (r.SensorType == "Heat Index")
          case true => first
            | rfl
            | (rw [eq_of_beq hb5]; rfl)
          case false =>
            cases hb6 : (r.SensorType == "Hygrometer")
            case true => first
              | rfl
              | (rw [eq_of_beq hb6]; rfl)
            case false =>
              cases hb7 : (r.SensorType == "Anemometer")
              case true => first
                | rfl
                | (rw [eq_of_beq hb7]; rfl)
              case false =>
                cases hb8 : (r.SensorType == "10 Minute Wind Gust")
                case true => first
                  | rfl
                  | (rw [eq_of_beq hb8]; rfl)
                case false =>
                  cases hb9 : (r.SensorType == "Wind Vane")
                  case true => first
                    | rfl
                    | (rw [eq_of_beq hb9]; rfl)
                  case false =>
                    cases hb10 : (r.SensorType == "Barometer")
                    case true => first
                      | rfl
                      | (rw [eq_of_beq hb10]; rfl)
                    case false =>
                      cases hb11 : (r.SensorType == "Barometer Tendency")
                      case true => first
                        | rfl
                        | (rw [eq_of_beq hb11]; rfl)
                      case false =>
                        cases hb12 : (r.SensorType == "Rain Gauge")
                        case true => first
                          | rfl
                          | (rw [eq_of_beq hb12]; rfl)
                        case false =>
                          cases hb13 : (r.SensorType == "Rain Rate")
                          case true => first
                            | rfl
                            | (rw [eq_of_beq hb13]; rfl)
                          case false =>
                            cases hb14 : (r.SensorType == "Solar Radiation Sensor")
                            case true => first
                              | rfl
                              | (rw [eq_of_beq hb14]; rfl)
                            case false =>
                              cases hb15 : (r.SensorType == "UV Radiation Sensor")
                              case true => first
                                | rfl
                                | (rw [eq_of_beq hb15]; rfl)
                              case false => rfl

/-- One loop iteration writes the `Wet Bulb Globe Temperature` data slot exactly when the
reading carries that label. -/
theorem stepD_temp2 (rose : Bool) (st : WeatherData × WeatherUnits)
    (r : ReadingInfo) :
    (processReading rose st r).1.Temperature2 =
      if r.SensorType == "Wet Bulb Globe Temperature" then parseFloatOr0 r.Value
      else st.1.Temperature2 := by
  unfold processReading
  cases hb1 : (r.SensorType == "Thermometer")
  case true => first
    | rfl
    | (rw [eq_of_beq hb1]; rfl)
  case false =>
    cases hb2 : (r.SensorType == "Dewpoint")
    case true => first
      | rfl
      | (rw [eq_of_beq hb2]; rfl)
    case false =>
      cases hb3 : (r.SensorType == "Wet Bulb Globe Temperature")
      case true => first
        | rfl
        | (rw [eq_of_beq hb3]; rfl)
      case false =>
        cases hb4 : (r.SensorType == "Wind Chill")
        case true => first
          | rfl
          | (rw [eq_of_beq hb4]; rfl)
        case false =>
          cases hb5 : (r.SensorType == "Heat Index")
          case true => first
            | rfl
            | (rw [eq_of_beq hb5]; rfl)
          case false =>
            cases hb6 : (r.SensorType == "Hygrometer")
            case true => first
              | rfl
              | (rw [eq_of_beq hb6]; rfl)
            case false =>
              cases hb7 : (r.SensorType == "Anemometer")
              case true => first
                | rfl
                | (rw [eq_of_beq hb7]; rfl)
              case false =>
                cases hb8 : (r.SensorType == "10 Minute Wind Gust")
                case true => first
                  | rfl
                  | (rw [eq_of_beq hb8]; rfl)
                case false =>
                  cases hb9 : (r.SensorType == "Wind Vane")
                  case true => first
                    | rfl
                    | (rw [eq_of_beq hb9]; rfl)
                  case false =>
                    cases hb10 : (r.SensorType == "Barometer")
                    case true => first
                      | rfl
                      | (rw [eq_of_beq hb10]; rfl)
                    case false =>
                      cases hb11 : (r.SensorType == "Barometer Tendency")
                      case true => first
                        | rfl
                        | (rw [eq_of_beq hb11]; rfl)
                      case false =>
                        cases hb12 : (r.SensorType == "Rain Gauge")
                        case true => first
                          | rfl
                          | (rw [eq_of_beq hb12]; rfl)
                        case false =>
                          cases hb13 : (r.SensorType == "Rain Rate")
                          case true => first
                            | rfl
                            | (rw [eq_of_beq hb13]; rfl)
                          case false =>
                            cases hb14 : (r.SensorType == "Solar Radiation Sensor")
                            case true => first
                              | rfl
                              | (rw [eq_of_beq hb14]; rfl)
                            case false =>
                              cases hb15 : (r.SensorType == "UV Radiation Sensor")
                              case true => first
                                | rfl
                                | (rw [eq_of_beq hb15]; rfl)
                              case false => rfl

/-- One loop iteration writes the `Wet Bulb Globe Temperature` unit slot exactly when the
reading carries that label. -/
theorem stepU_temp2 (rose : Bool) (st : WeatherData × WeatherUnits)
    (r : ReadingInfo) :
    (processReading rose st r).2.Temperature2 =
      if r.SensorType == "Wet Bulb Globe Temperature" then r.UnitSymbol
      else st.2.Temperature2 := by
  unfold processReading
  cases hb1 : (r.SensorType == "Thermometer")
  case true => first
    | rfl
    | (rw [eq_of_beq hb1]; rfl)
  case false =>
    cases hb2 : (r.SensorType == "Dewpoint")
    case true => first
      | rfl
      | (rw [eq_of_beq hb2]; rfl)
    case false =>
      cases hb3 : (r.SensorType == "Wet Bulb Globe Temperature")
      case true => first
        | rfl
        | (rw [eq_of_beq hb3]; rfl)
      case false =>
        cases hb4 : (r.SensorType == "Wind Chill")
        case true => first
          | rfl
          | (rw [eq_of_beq hb4]; rfl)
        case false =>
          cases hb5 : (r.SensorType == "Heat Index")
          case true => first
            | rfl
            | (rw [eq_of_beq hb5]; rfl)
          case false =>
            cases hb6 : (r.SensorType == "Hygrometer")
            case true => first
              | rfl
              | (rw [eq_of_beq hb6]; rfl)
            case false =>
              cases hb7 : (r.SensorType == "Anemometer")
              case true => first
                | rfl
                | (rw [eq_of_beq hb7]; rfl)
              case false =>
                cases hb8 : (r.SensorType == "10 Minute Wind Gust")
                case true => first
                  | rfl
                  | (rw [eq_of_beq hb8]; rfl)
                case false =>
                  cases hb9 : (r.SensorType == "Wind Vane")
                  case true => first
                    | rfl
                    | (rw [eq_of_beq hb9]; rfl)
                  case false =>
                    cases hb10 : (r.SensorType == "Barometer")
                    case true => first
                      | rfl
                      | (rw [eq_of_beq hb10]; rfl)
                    case false =>
                      cases hb11 : (r.SensorType == "Barometer Tendency")
                      case true => first
                        | rfl
                        | (rw [eq_of_beq hb11]; rfl)
                      case false =>
                        cases hb12 : (r.SensorType == "Rain Gauge")
                        case true => first
                          | rfl
                          | (rw [eq_of_beq hb12]; rfl)
                        case false =>
                          cases hb13 : (r.SensorType == "Rain Rate")
                          case true => first
                            | rfl
                            | (rw [eq_of_beq hb13]; rfl)
                          case false =>
                            cases hb14 : (r.SensorType == "Solar Radiation Sensor")
                            case true => first
                              | rfl
                              | (rw [eq_of_beq hb14]; rfl)
                            case false =>
                              cases hb15 : (r.SensorType == "UV Radiation Sensor")
                              case true => first
                                | rfl
                                | (rw [eq_of_beq hb15]; rfl)
                              case false => rfl

/-- One loop iteration writes the `Wind Chill` data slot exactly when the
reading carries that label. -/
theorem stepD_temp3 (rose : Bool) (st : WeatherData × WeatherUnits)
    (r : ReadingInfo) :
    (processReading rose st r).1.Temperature3 =
      if r.SensorType == "Wind Chill" then parseFloatOr0 r.Value
      else st.1.Temperature3 := by
  unfold processReading
  cases hb1 : (r.SensorType == "Thermometer")
  case true => first
    | rfl
    | (rw [eq_of_beq hb1]; rfl)
  case false =>
    cases hb2 : (r.SensorType == "Dewpoint")
    case true => first
      | rfl
      | (rw [eq_of_beq hb2]; rfl)
    case false =>
      cases hb3 : (r.SensorType == "Wet Bulb Globe Temperature")
      case true => first
        | rfl
        | (rw [eq_of_beq hb3]; rfl)
      case false =>
        cases hb4 : (r.SensorType == "Wind Chill")
        case true => first
          | rfl
          | (rw [eq_of_beq hb4]; rfl)
        case false =>
          cases hb5 : (r.SensorType == "Heat Index")
          case true => first
            | rfl
            | (rw [eq_of_beq hb5]; rfl)
          case false =>
            cases hb6 : (r.SensorType == "Hygrometer")
            case true => first
              | rfl
              | (rw [eq_of_beq hb6]; rfl)
            case false =>
              cases hb7 : (r.SensorType == "Anemometer")
              case true => first
                | rfl
                | (rw [eq_of_beq hb7]; rfl)
              case false =>
                cases hb8 : (r.SensorType == "10 Minute Wind Gust")
                case true => first
                  | rfl
                  | (rw [eq_of_beq hb8]; rfl)
                case false =>
                  cases hb9 : (r.SensorType == "Wind Vane")
                  case true => first
                    | rfl
                    | (rw [eq_of_beq hb9]; rfl)
                  case false =>
                    cases hb10 : (r.SensorType == "Barometer")
                    case true => first
                      | rfl
                      | (rw [eq_of_beq hb10]; rfl)
                    case false =>
                      cases hb11 : (r.SensorType == "Barometer Tendency")
                      case true => first
                        | rfl
                        | (rw [eq_of_beq hb11]; rfl)
                      case false =>
                        cases hb12 : (r.SensorType == "Rain Gauge")
                        case true => first
                          | rfl
                          | (rw [eq_of_beq hb12]; rfl)
                        case false =>
                          cases hb13 : (r.SensorType == "Rain Rate")
                          case true => first
                            | rfl
                            | (rw [eq_of_beq hb13]; rfl)
                          case false =>
                            cases hb14 : (r.SensorType == "Solar Radiation Sensor")
                            case true => first
                              | rfl
                              | (rw [eq_of_beq hb14]; rfl)
                            case false =>
                              cases hb15 : (r.SensorType == "UV Radiation Sensor")
                              case true => first
                                | rfl
                                | (rw [eq_of_beq hb15]; rfl)
                              case false => rfl

/-- One loop iteration writes the `Wind Chill` unit slot exactly when the
reading carries that label. -/
theorem stepU_temp3 (rose : Bool) (st : WeatherData × WeatherUnits)
    (r : ReadingInfo) :
    (processReading rose st r).2.Temperature3 =
      if r.SensorType == "Wind Chill" then r.UnitSymbol
      else st.2.Temperature3 := by
  unfold processReading
  cases hb1 : (r.SensorType == "Thermometer")
  case true => first
    | rfl
    | (rw [eq_of_beq hb1]; rfl)
  case false =>
    cases hb2 : (r.SensorType == "Dewpoint")
    case true => first
      | rfl
      | (rw [eq_of_beq hb2]; rfl)
    case false =>
      cases hb3 : (r.SensorType == "Wet Bulb Globe Temperature")
      case true => first
        | rfl
        | (rw [eq_of_beq hb3]; rfl)
      case false =>
        cases hb4 : (r.SensorType == "Wind Chill")
        case true => first
          | rfl
          | (rw [eq_of_beq hb4]; rfl)
        case false =>
          cases hb5 : (r.SensorType == "Heat Index")
          case true => first
            | rfl
            | (rw [eq_of_beq hb5]; rfl)
          case false =>
            cases hb6 : (r.SensorType == "Hygrometer")
            case true => first
              | rfl
              | (rw [eq_of_beq hb6]; rfl)
            case false =>
              cases hb7 : (r.SensorType == "Anemometer")
              case true => first
                | rfl
                | (rw [eq_of_beq hb7]; rfl)
              case false =>
                cases hb8 : (r.SensorType == "10 Minute Wind Gust")
                case true => first
                  | rfl
                  | (rw [eq_of_beq hb8]; rfl)
                case false =>
                  cases hb9 : (r.SensorType == "Wind Vane")
                  case true => first
                    | rfl
                    | (rw [eq_of_beq hb9]; rfl)
                  case false =>
                    cases hb10 : (r.SensorType == "Barometer")
                    case true => first
                      | rfl
                      | (rw [eq_of_beq hb10]; rfl)
                    case false =>
                      cases hb11 : (r.SensorType == "Barometer Tendency")
                      case true => first
                        | rfl
                        | (rw [eq_of_beq hb11]; rfl)
                      case false =>
                        cases hb12 : (r.SensorType == "Rain Gauge")
                        case true => first
                          | rfl
                          | (rw [eq_of_beq hb12]; rfl)
                        case false =>
                          cases hb13 : (r.SensorType == "Rain Rate")
                          case true => first
                            | rfl
                            | (rw [eq_of_beq hb13]; rfl)
                          case false =>
                            cases hb14 : (r.SensorType == "Solar Radiation Sensor")
                            case true => first
                              | rfl
                              | (rw [eq_of_beq hb14]; rfl)
                            case false =>
                              cases hb15 : (r.SensorType == "UV Radiation Sensor")
                              case true => first
                                | rfl
                                | (rw [eq_of_beq hb15]; rfl)
                              case false => rfl

/-- One loop iteration writes the `Heat Index` data slot exactly when the
reading carries that label. -/
theorem stepD_temp4 (rose : Bool) (st : WeatherData × WeatherUnits)
    (r : ReadingInfo) :
    (processReading rose st r).1.Temperature4 =
      if r.SensorType == "Heat Index" then parseFloatOr0 r.Value
      else st.1.Temperature4 := by
  unfold processReading
  cases hb1 : (r.SensorType == "Thermometer")
  case true => first
    | rfl
    | (rw [eq_of_beq hb1]; rfl)
  case false =>
    cases hb2 : (r.SensorType == "Dewpoint")
    case true => first
      | rfl
      | (rw [eq_of_beq hb2]; rfl)
    case false =>
      cases hb3 : (r.SensorType == "Wet Bulb Globe Temperature")
      case true => first
        | rfl
        | (rw [eq_of_beq hb3]; rfl)
      case false =>
        cases hb4 : (r.SensorType == "Wind Chill")
        case true => first
          | rfl
          | (rw [eq_of_beq hb4]; rfl)
        case false =>
          cases hb5 : (r.SensorType == "Heat Index")
          case true => first
            | rfl
            | (rw [eq_of_beq hb5]; rfl)
          case false =>
            cases hb6 : (r.SensorType == "Hygrometer")
            case true => first
              | rfl
              | (rw [eq_of_beq hb6]; rfl)
            case false =>
              cases hb7 : (r.SensorType == "Anemometer")
              case true => first
                | rfl
                | (rw [eq_of_beq hb7]; rfl)
              case false =>
                cases hb8 : (r.SensorType == "10 Minute Wind Gust")
                case true => first
                  | rfl
                  | (rw [eq_of_beq hb8]; rfl)
                case false =>
                  cases hb9 : (r.SensorType == "Wind Vane")
                  case true => first
                    | rfl
                    | (rw [eq_of_beq hb9]; rfl)
                  case false =>
                    cases hb10 : (r.SensorType == "Barometer")
                    case true => first
                      | rfl
                      | (rw [eq_of_beq hb10]; rfl)
                    case false =>
                      cases hb11 : (r.SensorType == "Barometer Tendency")
                      case true => first
                        | rfl
                        | (rw [eq_of_beq hb11]; rfl)
                      case false =>
                        cases hb12 : (r.SensorType == "Rain Gauge")
                        case true => first
                          | rfl
                          | (rw [eq_of_beq hb12]; rfl)
                        case false =>
                          cases hb13 : (r.SensorType == "Rain Rate")
                          case true => first
                            | rfl
                            | (rw [eq_of_beq hb13]; rfl)
                          case false =>
                            cases hb14 : (r.SensorType == "Solar Radiation Sensor")
                            case true => first
                              | rfl
                              | (rw [eq_of_beq hb14]; rfl)
                            case false =>
                              cases hb15 : (r.SensorType == "UV Radiation Sensor")
                              case true => first
                                | rfl
                                | (rw [eq_of_beq hb15]; rfl)
                              case false => rfl

/-- One loop iteration writes the `Heat Index` unit slot exactly when the
reading carries that label. -/
theorem stepU_temp4 (rose : Bool) (st : WeatherData × WeatherUnits)
    (r : ReadingInfo) :
    (processReading rose st r).2.Temperature4 =
      if r.SensorType == "Heat Index" then r.UnitSymbol
      else st.2.Temperature4 := by
  unfold processReading
  cases hb1 : (r.SensorType == "Thermometer")
  case true => first
    | rfl
    | (rw [eq_of_beq hb1]; rfl)
  case false =>
    cases hb2 : (r.SensorType == "Dewpoint")
    case true => first
      | rfl
      | (rw [eq_of_beq hb2]; rfl)
    case false =>
      cases hb3 : (r.SensorType == "Wet Bulb Globe Temperature")
      case true => first
        | rfl
        | (rw [eq_of_beq hb3]; rfl)
      case false =>
        cases hb4 : (r.SensorType == "Wind Chill")
        case true => first
          | rfl
          | (rw [eq_of_beq hb4]; rfl)
        case false =>
          cases hb5 : (r.SensorType == "Heat Index")
          case true => first
            | rfl
            | (rw [eq_of_beq hb5]; rfl)
          case false =>
            cases hb6 : (r.SensorType == "Hygrometer")
            case true => first
              | rfl
              | (rw [eq_of_beq hb6]; rfl)
            case false =>
              cases hb7 : (r.SensorType == "Anemometer")
              case true => first
                | rfl
                | (rw [eq_of_beq hb7]; rfl)
              case false =>
                cases hb8 : (r.SensorType == "10 Minute Wind Gust")
                case true => first
                  | rfl
                  | (rw [eq_of_beq hb8]; rfl)
                case false =>
                  cases hb9 : (r.SensorType == "Wind Vane")
                  case true => first
                    | rfl
                    | (rw [eq_of_beq hb9]; rfl)
                  case false =>
                    cases hb10 : (r.SensorType == "Barometer")
                    case true => first
                      | rfl
                      | (rw [eq_of_beq hb10]; rfl)
                    case false =>
                      cases hb11 : (r.SensorType == "Barometer Tendency")
                      case true => first
                        | rfl
                        | (rw [eq_of_beq hb11]; rfl)
                      case false =>
                        cases hb12 : (r.SensorType == "Rain Gauge")
                        case true => first
                          | rfl
                          | (rw [eq_of_beq hb12]; rfl)
                        case false =>
                          cases hb13 : (r.SensorType == "Rain Rate")
                          case true => first
                            | rfl
                            | (rw [eq_of_beq hb13]; rfl)
                          case false =>
                            cases hb14 : (r.SensorType == "Solar Radiation Sensor")
                            case true => first
                              | rfl
                              | (rw [eq_of_beq hb14]; rfl)
                            case false =>
                              cases hb15 : (r.SensorType == "UV Radiation Sensor")
                              case true => first
                                | rfl
                                | (rw [eq_of_beq hb15]; rfl)
                              case false => rfl

/-- One loop iteration writes the `Hygrometer` data slot exactly when the
reading carries that label. -/
theorem stepD_humidity (rose : Bool) (st : WeatherData × WeatherUnits)
    (r : ReadingInfo) :
    (processReading rose st r).1.Humidity =
      if r.SensorType == "Hygrometer" then parseFloatOr0 r.Value
      else st.1.Humidity := by
  unfold processReading
  cases hb1 : (r.SensorType == "Thermometer")
  case true => first
    | rfl
    | (rw [eq_of_beq hb1]; rfl)
  case false =>
    cases hb2 : (r.SensorType == "Dewpoint")
    case true => first
      | rfl
      | (rw [eq_of_beq hb2]; rfl)
    case false =>
      cases hb3 : (r.SensorType == "Wet Bulb Globe Temperature")
      case true => first
        | rfl
        | (rw [eq_of_beq hb3]; rfl)
      case false =>
        cases hb4 : (r.SensorType == "Wind Chill")
        case true => first
          | rfl
          | (rw [eq_of_beq hb4]; rfl)
        case false =>
          cases hb5 : (r.SensorType == "Heat Index")
          case true => first
            | rfl
            | (rw [eq_of_beq hb5]; rfl)
          case false =>
            cases hb6 : (r.SensorType == "Hygrometer")
            case true => first
              | rfl
              | (rw [eq_of_beq hb6]; rfl)
            case false =>
              cases hb7 : (r.SensorType == "Anemometer")
              case true => first
                | rfl
                | (rw [eq_of_beq hb7]; rfl)
              case false =>
                cases hb8 : (r.SensorType == "10 Minute Wind Gust")
                case true => first
                  | rfl
                  | (rw [eq_of_beq hb8]; rfl)
                case false =>
                  cases hb9 : (r.SensorType == "Wind Vane")
                  case true => first
                    | rfl
                    | (rw [eq_of_beq hb9]; rfl)
                  case false =>
                    cases hb10 : (r.SensorType == "Barometer")
                    case true => first
                      | rfl
                      | (rw [eq_of_beq hb10]; rfl)
                    case false =>
                      cases hb11 : (r.SensorType == "Barometer Tendency")
                      case true => first
                        | rfl
                        | (rw [eq_of_beq hb11]; rfl)
                      case false =>
                        cases hb12 : (r.SensorType == "Rain Gauge")
                        case true => first
                          | rfl
                          | (rw [eq_of_beq hb12]; rfl)
                        case false =>
                          cases hb13 : (r.SensorType == "Rain Rate")
                          case true => first
                            | rfl
                            | (rw [eq_of_beq hb13]; rfl)
                          case false =>
                            cases hb14 : (r.SensorType == "Solar Radiation Sensor")
                            case true => first
                              | rfl
                              | (rw [eq_of_beq hb14]; rfl)
                            case false =>
                              cases hb15 : (r.SensorType == "UV Radiation Sensor")
                              case true => first
                                | rfl
                                | (rw [eq_of_beq hb15]; rfl)
                              case false => rfl

/-- One loop iteration writes the `Hygrometer` unit slot exactly when the
reading carries that label. -/
theorem stepU_humidity (rose : Bool) (st : WeatherData × WeatherUnits)
    (r : ReadingInfo) :
    (processReading rose st r).2.Humidity =
      if r.SensorType == "Hygrometer" then r.UnitSymbol
      else st.2.Humidity := by
  unfold processReading
  cases hb1 : (r.SensorType == "Thermometer")
  case true => first
    | rfl
    | (rw [eq_of_beq hb1]; rfl)
  case false =>
    cases hb2 : (r.SensorType == "Dewpoint")
    case true => first
      | rfl
      | (rw [eq_of_beq hb2]; rfl)
    case false =>
      cases hb3 : (r.SensorType == "Wet Bulb Globe Temperature")
      case true => first
        | rfl
        | (rw [eq_of_beq hb3]; rfl)
      case false =>
        cases hb4 : (r.SensorType == "Wind Chill")
        case true => first
          | rfl
          | (rw [eq_of_beq hb4]; rfl)
        case false =>
          cases hb5 : (r.SensorType == "Heat Index")
          case true => first
            | rfl
            | (rw [eq_of_beq hb5]; rfl)
          case false =>
            cases hb6 : (r.SensorType == "Hygrometer")
            case true => first
              | rfl
              | (rw [eq_of_beq hb6]; rfl)
            case false =>
              cases hb7 : (r.SensorType == "Anemometer")
              case true => first
                | rfl
                | (rw [eq_of_beq hb7]; rfl)
              case false =>
                cases hb8 : (r.SensorType == "10 Minute Wind Gust")
                case true => first
                  | rfl
                  | (rw [eq_of_beq hb8]; rfl)
                case false =>
                  cases hb9 : (r.SensorType == "Wind Vane")
                  case true => first
                    | rfl
                    | (rw [eq_of_beq hb9]; rfl)
                  case false =>
                    cases hb10 : (r.SensorType == "Barometer")
                    case true => first
                      | rfl
                      | (rw [eq_of_beq hb10]; rfl)
                    case false =>
                      cases hb11 : (r.SensorType == "Barometer Tendency")
                      case true => first
                        | rfl
                        | (rw [eq_of_beq hb11]; rfl)
                      case false =>
                        cases hb12 : (r.SensorType == "Rain Gauge")
                        case true => first
                          | rfl
                          | (rw [eq_of_beq hb12]; rfl)
                        case false =>
                          cases hb13 : (r.SensorType == "Rain Rate")
                          case true => first
                            | rfl
                            | (rw [eq_of_beq hb13]; rfl)
                          case false =>
                            cases hb14 : (r.SensorType == "Solar Radiation Sensor")
                            case true => first
                              | rfl
                              | (rw [eq_of_beq hb14]; rfl)
                            case false =>
                              cases hb15 : (r.SensorType == "UV Radiation Sensor")
                              case true => first
                                | rfl
                                | (rw [eq_of_beq hb15]; rfl)
                              case false => rfl

/-- One loop iteration writes the `Anemometer` data slot exactly when the
reading carries that label. -/
theorem stepD_wspd0 (rose : Bool) (st : WeatherData × WeatherUnits)
    (r : ReadingInfo) :
    (processReading rose st r).1.Windspeed0 =
      if r.SensorType == "Anemometer" then parseFloatOr0 r.Value
      else st.1.Windspeed0 := by
  unfold processReading
  cases hb1 : (r.SensorType == "Thermometer")
  case true => first
    | rfl
    | (rw [eq_of_beq hb1]; rfl)
  case false =>
    cases hb2 : (r.SensorType == "Dewpoint")
    case true => first
      | rfl
      | (rw [eq_of_beq hb2]; rfl)
    case false =>
      cases hb3 : (r.SensorType == "Wet Bulb Globe Temperature")
      case true => first
        | rfl
        | (rw [eq_of_beq hb3]; rfl)
      case false =>
        cases hb4 : (r.SensorType == "Wind Chill")
        case true => first
          | rfl
          | (rw [eq_of_beq hb4]; rfl)
        case false =>
          cases hb5 : (r.SensorType == "Heat Index")
          case true => first
            | rfl
            | (rw [eq_of_beq hb5]; rfl)
          case false =>
            cases hb6 : (r.SensorType == "Hygrometer")
            case true => first
              | rfl
              | (rw [eq_of_beq hb6]; rfl)
            case false =>
              cases hb7 : (r.SensorType == "Anemometer")
              case true => first
                | rfl
                | (rw [eq_of_beq hb7]; rfl)
              case false =>
                cases hb8 : (r.SensorType == "10 Minute Wind Gust")
                case true => first
                  | rfl
                  | (rw [eq_of_beq hb8]; rfl)
                case false =>
                  cases hb9 : (r.SensorType == "Wind Vane")
                  case true => first
                    | rfl
                    | (rw [eq_of_beq hb9]; rfl)
                  case false =>
                    cases hb10 : (r.SensorType == "Barometer")
                    case true => first
                      | rfl
                      | (rw [eq_of_beq hb10]; rfl)
                    case false =>
                      cases hb11 : (r.SensorType == "Barometer Tendency")
                      case true => first
                        | rfl
                        | (rw [eq_of_beq hb11]; rfl)
                      case false =>
                        cases hb12 : (r.SensorType == "Rain Gauge")
                        case true => first
                          | rfl
                          | (rw [eq_of_beq hb12]; rfl)
                        case false =>
                          cases hb13 : (r.SensorType == "Rain Rate")
                          case true => first
                            | rfl
                            | (rw [eq_of_beq hb13]; rfl)
                          case false =>
                            cases hb14 : (r.SensorType == "Solar Radiation Sensor")
                            case true => first
                              | rfl
                              | (rw [eq_of_beq hb14]; rfl)
                            case false =>
                              cases hb15 : (r.SensorType == "UV Radiation Sensor")
                              case true => first
                                | rfl
                                | (rw [eq_of_beq hb15]; rfl)
                              case false => rfl

/-- One loop iteration writes the `Anemometer` unit slot exactly when the
reading carries that label. -/
theorem stepU_wspd0 (rose : Bool) (st : WeatherData × WeatherUnits)
    (r : ReadingInfo) :
    (processReading rose st r).2.Windspeed0 =
      if r.SensorType == "Anemometer" then r.UnitSymbol
      else st.2.Windspeed0 := by
  unfold processReading
  cases hb1 : (r.SensorType == "Thermometer")
  case true => first
    | rfl
    | (rw [eq_of_beq hb1]; rfl)
  case false =>
    cases hb2 : (r.SensorType == "Dewpoint")
    case true => first
      | rfl
      | (rw [eq_of_beq hb2]; rfl)
    case false =>
      cases hb3 : (r.SensorType == "Wet Bulb Globe Temperature")
      case true => first
        | rfl
        | (rw [eq_of_beq hb3]; rfl)
      case false =>
        cases hb4 : (r.SensorType == "Wind Chill")
        case true => first
          | rfl
          | (rw [eq_of_beq hb4]; rfl)
        case false =>
          cases hb5 : (r.SensorType == "Heat Index")
          case true => first
            | rfl
            | (rw [eq_of_beq hb5]; rfl)
          case false =>
            cases hb6 : (r.SensorType == "Hygrometer")
            case true => first
              | rfl
              | (rw [eq_of_beq hb6]; rfl)
            case false =>
              cases hb7 : (r.SensorType == "Anemometer")
              case true => first
                | rfl
                | (rw [eq_of_beq hb7]; rfl)
              case false =>
                cases hb8 : (r.SensorType == "10 Minute Wind Gust")
                case true => first
                  | rfl
                  | (rw [eq_of_beq hb8]; rfl)
                case false =>
                  cases hb9 : (r.SensorType == "Wind Vane")
                  case true => first
                    | rfl
                    | (rw [eq_of_beq hb9]; rfl)
                  case false =>
                    cases hb10 : (r.SensorType == "Barometer")
                    case true => first
                      | rfl
                      | (rw [eq_of_beq hb10]; rfl)
                    case false =>
                      cases hb11 : (r.SensorType == "Barometer Tendency")
                      case true => first
                        | rfl
                        | (rw [eq_of_beq hb11]; rfl)
                      case false =>
                        cases hb12 : (r.SensorType == "Rain Gauge")
                        case true => first
                          | rfl
                          | (rw [eq_of_beq hb12]; rfl)
                        case false =>
                          cases hb13 : (r.SensorType == "Rain Rate")
                          case true => first
                            | rfl
                            | (rw [eq_of_beq hb13]; rfl)
                          case false =>
                            cases hb14 : (r.SensorType == "Solar Radiation Sensor")
                            case true => first
                              | rfl
                              | (rw [eq_of_beq hb14]; rfl)
                            case false =>
                              cases hb15 : (r.SensorType == "UV Radiation Sensor")
                              case true => first
                                | rfl
                                | (rw [eq_of_beq hb15]; rfl)
                              case false => rfl

/-- One loop iteration writes the `10 Minute Wind Gust` data slot exactly when the
reading carries that label. -/
theorem stepD_wspd1 (rose : Bool) (st : WeatherData × WeatherUnits)
    (r : ReadingInfo) :
    (processReading rose st r).1.Windspeed1 =
      if r.SensorType == "10 Minute Wind Gust" then parseFloatOr0 r.Value
      else st.1.Windspeed1 := by
  unfold processReading
  cases hb1 : (r.SensorType == "Thermometer")
  case true => first
    | rfl
    | (rw [eq_of_beq hb1]; rfl)
  case false =>
    cases hb2 : (r.SensorType == "Dewpoint")
    case true => first
      | rfl
      | (rw [eq_of_beq hb2]; rfl)
    case false =>
      cases hb3 : (r.SensorType == "Wet Bulb Globe Temperature")
      case true => first
        | rfl
        | (rw [eq_of_beq hb3]; rfl)
      case false =>
        cases hb4 : (r.SensorType == "Wind Chill")
        case true => first
          | rfl
          | (rw [eq_of_beq hb4]; rfl)
        case false =>
          cases hb5 : (r.SensorType == "Heat Index")
          case true => first
            | rfl
            | (rw [eq_of_beq hb5]; rfl)
          case false =>
            cases hb6 : (r.SensorType == "Hygrometer")
            case true => first
              | rfl
              | (rw [eq_of_beq hb6]; rfl)
            case false =>
              cases hb7 : (r.SensorType == "Anemometer")
              case true => first
                | rfl
                | (rw [eq_of_beq hb7]; rfl)
              case false =>
                cases hb8 : (r.SensorType == "10 Minute Wind Gust")
                case true => first
                  | rfl
                  | (rw [eq_of_beq hb8]; rfl)
                case false =>
                  cases hb9 : (r.SensorType == "Wind Vane")
                  case true => first
                    | rfl
                    | (rw [eq_of_beq hb9]; rfl)
                  case false =>
                    cases hb10 : (r.SensorType == "Barometer")
                    case true => first
                      | rfl
                      | (rw [eq_of_beq hb10]; rfl)
                    case false =>
                      cases hb11 : (r.SensorType == "Barometer Tendency")
                      case true => first
                        | rfl
                        | (rw [eq_of_beq hb11]; rfl)
                      case false =>
                        cases hb12 : (r.SensorType == "Rain Gauge")
                        case true => first
                          | rfl
                          | (rw [eq_of_beq hb12]; rfl)
                        case false =>
                          cases hb13 : (r.SensorType == "Rain Rate")
                          case true => first
                            | rfl
                            | (rw [eq_of_beq hb13]; rfl)
                          case false =>
                            cases hb14 : (r.SensorType == "Solar Radiation Sensor")
                            case true => first
                              | rfl
                              | (rw [eq_of_beq hb14]; rfl)
                            case false =>
                              cases hb15 : (r.SensorType == "UV Radiation Sensor")
                              case true => first
                                | rfl
                                | (rw [eq_of_beq hb15]; rfl)
                              case false => rfl

/-- One loop iteration writes the `10 Minute Wind Gust` unit slot exactly when the
reading carries that label. -/
theorem stepU_wspd1 (rose : Bool) (st : WeatherData × WeatherUnits)
    (r : ReadingInfo) :
    (processReading rose st r).2.Windspeed1 =
      if r.SensorType == "10 Minute Wind Gust" then r.UnitSymbol
      else st.2.Windspeed1 := by
  unfold processReading
  cases hb1 : (r.SensorType == "Thermometer")
  case true => first
    | rfl
    | (rw [eq_of_beq hb1]; rfl)
  case false =>
    cases hb2 : (r.SensorType == "Dewpoint")
    case true => first
      | rfl
      | (rw [eq_of_beq hb2]; rfl)
    case false =>
      cases hb3 : (r.SensorType == "Wet Bulb Globe Temperature")
      case true => first
        | rfl
        | (rw [eq_of_beq hb3]; rfl)
      case false =>
        cases hb4 : (r.SensorType == "Wind Chill")
        case true => first
          | rfl
          | (rw [eq_of_beq hb4]; rfl)
        case false =>
          cases hb5 : (r.SensorType == "Heat Index")
          case true => first
            | rfl
            | (rw [eq_of_beq hb5]; rfl)
          case false =>
            cases hb6 : (r.SensorType == "Hygrometer")
            case true => first
              | rfl
              | (rw [eq_of_beq hb6]; rfl)
            case false =>
              cases hb7 : (r.SensorType == "Anemometer")
              case true => first
                | rfl
                | (rw [eq_of_beq hb7]; rfl)
              case false =>
                cases hb8 : (r.SensorType == "10 Minute Wind Gust")
                case true => first
                  | rfl
                  | (rw [eq_of_beq hb8]; rfl)
                case false =>
                  cases hb9 : (r.SensorType == "Wind Vane")
                  case true => first
                    | rfl
                    | (rw [eq_of_beq hb9]; rfl)
                  case false =>
                    cases hb10 : (r.SensorType == "Barometer")
                    case true => first
                      | rfl
                      | (rw [eq_of_beq hb10]; rfl)
                    case false =>
                      cases hb11 : (r.SensorType == "Barometer Tendency")
                      case true => first
                        | rfl
                        | (rw [eq_of_beq hb11]; rfl)
                      case false =>
                        cases hb12 : (r.SensorType == "Rain Gauge")
                        case true => first
                          | rfl
                          | (rw [eq_of_beq hb12]; rfl)
                        case false =>
                          cases hb13 : (r.SensorType == "Rain Rate")
                          case true => first
                            | rfl
                            | (rw [eq_of_beq hb13]; rfl)
                          case false =>
                            cases hb14 : (r.SensorType == "Solar Radiation Sensor")
                            case true => first
                              | rfl
                              | (rw [eq_of_beq hb14]; rfl)
                            case false =>
                              cases hb15 : (r.SensorType == "UV Radiation Sensor")
                              case true => first
                                | rfl
                                | (rw [eq_of_beq hb15]; rfl)
                              case false => rfl

/-- One loop iteration writes the `Wind Vane` data slot exactly when the
reading carries that label. -/
theorem stepD_wspd2 (rose : Bool) (st : WeatherData × WeatherUnits)
    (r : ReadingInfo) :
    (processReading rose st r).1.Windspeed2 =
      if r.SensorType == "Wind Vane" then parseFloatOr0 r.Value
      else st.1.Windspeed2 := by
  unfold processReading
  cases hb1 : (r.SensorType == "Thermometer")
  case true => first
    | rfl
    | (rw [eq_of_beq hb1]; rfl)
  case false =>
    cases hb2 : (r.SensorType == "Dewpoint")
    case true => first
      | rfl
      | (rw [eq_of_beq hb2]; rfl)
    case false =>
      cases hb3 : (r.SensorType == "Wet Bulb Globe Temperature")
      case true => first
        | rfl
        | (rw [eq_of_beq hb3]; rfl)
      case false =>
        cases hb4 : (r.SensorType == "Wind Chill")
        case true => first
          | rfl
          | (rw [eq_of_beq hb4]; rfl)
        case false =>
          cases hb5 : (r.SensorType == "Heat Index")
          case true => first
            | rfl
            | (rw [eq_of_beq hb5]; rfl)
          case false =>
            cases hb6 : (r.SensorType == "Hygrometer")
            case true => first
              | rfl
              | (rw [eq_of_beq hb6]; rfl)
            case false =>
              cases hb7 : (r.SensorType == "Anemometer")
              case true => first
                | rfl
                | (rw [eq_of_beq hb7]; rfl)
              case false =>
                cases hb8 : (r.SensorType == "10 Minute Wind Gust")
                case true => first
                  | rfl
                  | (rw [eq_of_beq hb8]; rfl)
                case false =>
                  cases hb9 : (r.SensorType == "Wind Vane")
                  case true => first
                    | rfl
                    | (rw [eq_of_beq hb9]; rfl)
                  case false =>
                    cases hb10 : (r.SensorType == "Barometer")
                    case true => first
                      | rfl
                      | (rw [eq_of_beq hb10]; rfl)
                    case false =>
                      cases hb11 : (r.SensorType == "Barometer Tendency")
                      case true => first
                        | rfl
                        | (rw [eq_of_beq hb11]; rfl)
                      case false =>
                        cases hb12 : (r.SensorType == "Rain Gauge")
                        case true => first
                          | rfl
                          | (rw [eq_of_beq hb12]; rfl)
                        case false =>
                          cases hb13 : (r.SensorType == "Rain Rate")
                          case true => first
                            | rfl
                            | (rw [eq_of_beq hb13]; rfl)
                          case false =>
                            cases hb14 : (r.SensorType == "Solar Radiation Sensor")
                            case true => first
                              | rfl
                              | (rw [eq_of_beq hb14]; rfl)
                            case false =>
                              cases hb15 : (r.SensorType == "UV Radiation Sensor")
                              case true => first
                                | rfl
                                | (rw [eq_of_beq hb15]; rfl)
                              case false => rfl

/-- One loop iteration writes the `Wind Vane` unit slot exactly when the
reading carries that label. -/
theorem stepU_wspd2 (rose : Bool) (st : WeatherData × WeatherUnits)
    (r : ReadingInfo) :
    (processReading rose st r).2.Windspeed2 =
      if r.SensorType == "Wind Vane" then r.UnitSymbol
      else st.2.Windspeed2 := by
  unfold processReading
  cases hb1 : (r.SensorType == "Thermometer")
  case true => first
    | rfl
    | (rw [eq_of_beq hb1]; rfl)
  case false =>
    cases hb2 : (r.SensorType == "Dewpoint")
    case true => first
      | rfl
      | (rw [eq_of_beq hb2]; rfl)
    case false =>
      cases hb3 : (r.SensorType == "Wet Bulb Globe Temperature")
      case true => first
        | rfl
        | (rw [eq_of_beq hb3]; rfl)
      case false =>
        cases hb4 : (r.SensorType == "Wind Chill")
        case true => first
          | rfl
          | (rw [eq_of_beq hb4]; rfl)
        case false =>
          cases hb5 : (r.SensorType == "Heat Index")
          case true => first
            | rfl
            | (rw [eq_of_beq hb5]; rfl)
          case false =>
            cases hb6 : (r.SensorType == "Hygrometer")
            case true => first
              | rfl
              | (rw [eq_of_beq hb6]; rfl)
            case false =>
              cases hb7 : (r.SensorType == "Anemometer")
              case true => first
                | rfl
                | (rw [eq_of_beq hb7]; rfl)
              case false =>
                cases hb8 : (r.SensorType == "10 Minute Wind Gust")
                case true => first
                  | rfl
                  | (rw [eq_of_beq hb8]; rfl)
                case false =>
                  cases hb9 : (r.SensorType == "Wind Vane")
                  case true => first
                    | rfl
                    | (rw [eq_of_beq hb9]; rfl)
                  case false =>
                    cases hb10 : (r.SensorType == "Barometer")
                    case true => first
                      | rfl
                      | (rw [eq_of_beq hb10]; rfl)
                    case false =>
                      cases hb11 : (r.SensorType == "Barometer Tendency")
                      case true => first
                        | rfl
                        | (rw [eq_of_beq hb11]; rfl)
                      case false =>
                        cases hb12 : (r.SensorType == "Rain Gauge")
                        case true => first
                          | rfl
                          | (rw [eq_of_beq hb12]; rfl)
                        case false =>
                          cases hb13 : (r.SensorType == "Rain Rate")
                          case true => first
                            | rfl
                            | (rw [eq_of_beq hb13]; rfl)
                          case false =>
                            cases hb14 : (r.SensorType == "Solar Radiation Sensor")
                            case true => first
                              | rfl
                              | (rw [eq_of_beq hb14]; rfl)
                            case false =>
                              cases hb15 : (r.SensorType == "UV Radiation Sensor")
                              case true => first
                                | rfl
                                | (rw [eq_of_beq hb15]; rfl)
                              case false => rfl

/-- One loop iteration writes the `Barometer` data slot exactly when the
reading carries that label. -/
theorem stepD_pressure (rose : Bool) (st : WeatherData × WeatherUnits)
    (r : ReadingInfo) :
    (processReading rose st r).1.Pressure =
      if r.SensorType == "Barometer" then parseFloatOr0 r.Value
      else st.1.Pressure := by
  unfold processReading
  cases hb1 : (r.SensorType == "Thermometer")
  case true => first
    | rfl
    | (rw [eq_of_beq hb1]; rfl)
  case false =>
    cases hb2 : (r.SensorType == "Dewpoint")
    case true => first
      | rfl
      | (rw [eq_of_beq hb2]; rfl)
    case false =>
      cases hb3 : (r.SensorType == "Wet Bulb Globe Temperature")
      case true => first
        | rfl
        | (rw [eq_of_beq hb3]; rfl)
      case false =>
        cases hb4 : (r.SensorType == "Wind Chill")
        case true => first
          | rfl
          | (rw [eq_of_beq hb4]; rfl)
        case false =>
          cases hb5 : (r.SensorType == "Heat Index")
          case true => first
            | rfl
            | (rw [eq_of_beq hb5]; rfl)
          case false =>
            cases hb6 : (r.SensorType == "Hygrometer")
            case true => first
              | rfl
              | (rw [eq_of_beq hb6]; rfl)
            case false =>
              cases hb7 : (r.SensorType == "Anemometer")
              case true => first
                | rfl
                | (rw [eq_of_beq hb7]; rfl)
              case false =>
                cases hb8 : (r.SensorType == "10 Minute Wind Gust")
                case true => first
                  | rfl
                  | (rw [eq_of_beq hb8]; rfl)
                case false =>
                  cases hb9 : (r.SensorType == "Wind Vane")
                  case true => first
                    | rfl
                    | (rw [eq_of_beq hb9]; rfl)
                  case false =>
                    cases hb10 : (r.SensorType == "Barometer")
                    case true => first
                      | rfl
                      | (rw [eq_of_beq hb10]; rfl)
                    case false =>
                      cases hb11 : (r.SensorType == "Barometer Tendency")
                      case true => first
                        | rfl
                        | (rw [eq_of_beq hb11]; rfl)
                      case false =>
                        cases hb12 : (r.SensorType == "Rain Gauge")
                        case true => first
                          | rfl
                          | (rw [eq_of_beq hb12]; rfl)
                        case false =>
                          cases hb13 : (r.SensorType == "Rain Rate")
                          case true => first
                            | rfl
                            | (rw [eq_of_beq hb13]; rfl)
                          case false =>
                            cases hb14 : (r.SensorType == "Solar Radiation Sensor")
                            case true => first
                              | rfl
                              | (rw [eq_of_beq hb14]; rfl)
                            case false =>
                              cases hb15 : (r.SensorType == "UV Radiation Sensor")
                              case true => first
                                | rfl
                                | (rw [eq_of_beq hb15]; rfl)
                              case false => rfl

/-- One loop iteration writes the `Barometer` unit slot exactly when the
reading carries that label. -/
theorem stepU_pressure (rose : Bool) (st : WeatherData × WeatherUnits)
    (r : ReadingInfo) :
    (processReading rose st r).2.Pressure =
      if r.SensorType == "Barometer" then r.UnitSymbol
      else st.2.Pressure := by
  unfold processReading
  cases hb1 : (r.SensorType == "Thermometer")
  case true => first
    | rfl
    | (rw [eq_of_beq hb1]; rfl)
  case false =>
    cases hb2 : (r.SensorType == "Dewpoint")
    case true => first
      | rfl
      | (rw [eq_of_beq hb2]; rfl)
    case false =>
      cases hb3 : (r.SensorType == "Wet Bulb Globe Temperature")
      case true => first
        | rfl
        | (rw [eq_of_beq hb3]; rfl)
      case false =>
        cases hb4 : (r.SensorType == "Wind Chill")
        case true => first
          | rfl
          | (rw [eq_of_beq hb4]; rfl)
        case false =>
          cases hb5 : (r.SensorType == "Heat Index")
          case true => first
            | rfl
            | (rw [eq_of_beq hb5]; rfl)
          case false =>
            cases hb6 : (r.SensorType == "Hygrometer")
            case true => first
              | rfl
              | (rw [eq_of_beq hb6]; rfl)
            case false =>
              cases hb7 : (r.SensorType == "Anemometer")
              case true => first
                | rfl
                | (rw [eq_of_beq hb7]; rfl)
              case false =>
                cases hb8 : (r.SensorType == "10 Minute Wind Gust")
                case true => first
                  | rfl
                  | (rw [eq_of_beq hb8]; rfl)
                case false =>
                  cases hb9 : (r.SensorType == "Wind Vane")
                  case true => first
                    | rfl
                    | (rw [eq_of_beq hb9]; rfl)
                  case false =>
                    cases hb10 : (r.SensorType == "Barometer")
                    case true => first
                      | rfl
                      | (rw [eq_of_beq hb10]; rfl)
                    case false =>
                      cases hb11 : (r.SensorType == "Barometer Tendency")
                      case true => first
                        | rfl
                        | (rw [eq_of_beq hb11]; rfl)
                      case false =>
                        cases hb12 : (r.SensorType == "Rain Gauge")
                        case true => first
                          | rfl
                          | (rw [eq_of_beq hb12]; rfl)
                        case false =>
                          cases hb13 : (r.SensorType == "Rain Rate")
                          case true => first
                            | rfl
                            | (rw [eq_of_beq hb13]; rfl)
                          case false =>
                            cases hb14 : (r.SensorType == "Solar Radiation Sensor")
                            case true => first
                              | rfl
                              | (rw [eq_of_beq hb14]; rfl)
                            case false =>
                              cases hb15 : (r.SensorType == "UV Radiation Sensor")
                              case true => first
                                | rfl
                                | (rw [eq_of_beq hb15]; rfl)
                              case false => rfl

/-- One loop iteration writes the `Barometer Tendency` data slot exactly when the
reading carries that label. -/
theorem stepD_ptrend (rose : Bool) (st : WeatherData × WeatherUnits)
    (r : ReadingInfo) :
    (processReading rose st r).1.PressureTrend =
      if r.SensorType == "Barometer Tendency" then r.Value
      else st.1.PressureTrend := by
  unfold processReading
  cases hb1 : (r.SensorType == "Thermometer")
  case true => first
    | rfl
    | (rw [eq_of_beq hb1]; rfl)
  case false =>
    cases hb2 : (r.SensorType == "Dewpoint")
    case true => first
      | rfl
      | (rw [eq_of_beq hb2]; rfl)
    case false =>
      cases hb3 : (r.SensorType == "Wet Bulb Globe Temperature")
      case true => first
        | rfl
        | (rw [eq_of_beq hb3]; rfl)
      case false =>
        cases hb4 : (r.SensorType == "Wind Chill")
        case true => first
          | rfl
          | (rw [eq_of_beq hb4]; rfl)
        case false =>
          cases hb5 : (r.SensorType == "Heat Index")
          case true => first
            | rfl
            | (rw [eq_of_beq hb5]; rfl)
          case false =>
            cases hb6 : (r.SensorType == "Hygrometer")
            case true => first
              | rfl
              | (rw [eq_of_beq hb6]; rfl)
            case false =>
              cases hb7 : (r.SensorType == "Anemometer")
              case true => first
                | rfl
                | (rw [eq_of_beq hb7]; rfl)
              case false =>
                cases hb8 : (r.SensorType == "10 Minute Wind Gust")
                case true => first
                  | rfl
                  | (rw [eq_of_beq hb8]; rfl)
                case false =>
                  cases hb9 : (r.SensorType == "Wind Vane")
                  case true => first
                    | rfl
                    | (rw [eq_of_beq hb9]; rfl)
                  case false =>
                    cases hb10 : (r.SensorType == "Barometer")
                    case true => first
                      | rfl
                      | (rw [eq_of_beq hb10]; rfl)
                    case false =>
                      cases hb11 : (r.SensorType == "Barometer Tendency")
                      case true => first
                        | rfl
                        | (rw [eq_of_beq hb11]; rfl)
                      case false =>
                        cases hb12 : (r.SensorType == "Rain Gauge")
                        case true => first
                          | rfl
                          | (rw [eq_of_beq hb12]; rfl)
                        case false =>
                          cases hb13 : (r.SensorType == "Rain Rate")
                          case true => first
                            | rfl
                            | (rw [eq_of_beq hb13]; rfl)
                          case false =>
                            cases hb14 : (r.SensorType == "Solar Radiation Sensor")
                            case true => first
                              | rfl
                              | (rw [eq_of_beq hb14]; rfl)
                            case false =>
                              cases hb15 : (r.SensorType == "UV Radiation Sensor")
                              case true => first
                                | rfl
                                | (rw [eq_of_beq hb15]; rfl)
                              case false => rfl

/-- One loop iteration writes the `Barometer Tendency` unit slot exactly when the
reading carries that label. -/
theorem stepU_ptrend (rose : Bool) (st : WeatherData × WeatherUnits)
    (r : ReadingInfo) :
    (processReading rose st r).2.PressureTrend =
      if r.SensorType == "Barometer Tendency" then r.UnitSymbol
      else st.2.PressureTrend := by
  unfold processReading
  cases hb1 : (r.SensorType == "Thermometer")
  case true => first
    | rfl
    | (rw [eq_of_beq hb1]; rfl)
  case false =>
    cases hb2 : (r.SensorType == "Dewpoint")
    case true => first
      | rfl
      | (rw [eq_of_beq hb2]; rfl)
    case false =>
      cases hb3 : (r.SensorType == "Wet Bulb Globe Temperature")
      case true => first
        | rfl
        | (rw [eq_of_beq hb3]; rfl)
      case false =>
        cases hb4 : (r.SensorType == "Wind Chill")
        case true => first
          | rfl
          | (rw [eq_of_beq hb4]; rfl)
        case false =>
          cases hb5 : (r.SensorType == "Heat Index")
          case true => first
            | rfl
            | (rw [eq_of_beq hb5]; rfl)
          case false =>
            cases hb6 : (r.SensorType == "Hygrometer")
            case true => first
              | rfl
              | (rw [eq_of_beq hb6]; rfl)
            case false =>
              cases hb7 : (r.SensorType == "Anemometer")
              case true => first
                | rfl
                | (rw [eq_of_beq hb7]; rfl)
              case false =>
                cases hb8 : (r.SensorType == "10 Minute Wind Gust")
                case true => first
                  | rfl
                  | (rw [eq_of_beq hb8]; rfl)
                case false =>
                  cases hb9 : (r.SensorType == "Wind Vane")
                  case true => first
                    | rfl
                    | (rw [eq_of_beq hb9]; rfl)
                  case false =>
                    cases hb10 : (r.SensorType == "Barometer")
                    case true => first
                      | rfl
                      | (rw [eq_of_beq hb10]; rfl)
                    case false =>
                      cases hb11 : (r.SensorType == "Barometer Tendency")
                      case true => first
                        | rfl
                        | (rw [eq_of_beq hb11]; rfl)
                      case false =>
                        cases hb12 : (r.SensorType == "Rain Gauge")
                        case true => first
                          | rfl
                          | (rw [eq_of_beq hb12]; rfl)
                        case false =>
                          cases hb13 : (r.SensorType == "Rain Rate")
                          case true => first
                            | rfl
                            | (rw [eq_of_beq hb13]; rfl)
                          case false =>
                            cases hb14 : (r.SensorType == "Solar Radiation Sensor")
                            case true => first
                              | rfl
                              | (rw [eq_of_beq hb14]; rfl)
                            case false =>
                              cases hb15 : (r.SensorType == "UV Radiation Sensor")
                              case true => first
                                | rfl
                                | (rw [eq_of_beq hb15]; rfl)
                              case false => rfl

/-- One loop iteration writes the `Rain Gauge` data slot exactly when the
reading carries that label. -/
theorem stepD_rain0 (rose : Bool) (st : WeatherData × WeatherUnits)
    (r : ReadingInfo) :
    (processReading rose st r).1.Rain0 =
      if r.SensorType == "Rain Gauge" then parseFloatOr0 r.Value
      else st.1.Rain0 := by
  unfold processReading
  cases hb1 : (r.SensorType == "Thermometer")
  case true => first
    | rfl
    | (rw [eq_of_beq hb1]; rfl)
  case false =>
    cases hb2 : (r.SensorType == "Dewpoint")
    case true => first
      | rfl
      | (rw [eq_of_beq hb2]; rfl)
    case false =>
      cases hb3 : (r.SensorType == "Wet Bulb Globe Temperature")
      case true => first
        | rfl
        | (rw [eq_of_beq hb3]; rfl)
      case false =>
        cases hb4 : (r.SensorType == "Wind Chill")
        case true => first
          | rfl
          | (rw [eq_of_beq hb4]; rfl)
        case false =>
          cases hb5 : (r.SensorType == "Heat Index")
          case true => first
            | rfl
            | (rw [eq_of_beq hb5]; rfl)
          case false =>
            cases hb6 : (r.SensorType == "Hygrometer")
            case true => first
              | rfl
              | (rw [eq_of_beq hb6]; rfl)
            case false =>
              cases hb7 : (r.SensorType == "Anemometer")
              case true => first
                | rfl
                | (rw [eq_of_beq hb7]; rfl)
              case false =>
                cases hb8 : (r.SensorType == "10 Minute Wind Gust")
                case true => first
                  | rfl
                  | (rw [eq_of_beq hb8]; rfl)
                case false =>
                  cases hb9 : (r.SensorType == "Wind Vane")
                  case true => first
                    | rfl
                    | (rw [eq_of_beq hb9]; rfl)
                  case false =>
                    cases hb10 : (r.SensorType == "Barometer")
                    case true => first
                      | rfl
                      | (rw [eq_of_beq hb10]; rfl)
                    case false =>
                      cases hb11 : (r.SensorType == "Barometer Tendency")
                      case true => first
                        | rfl
                        | (rw [eq_of_beq hb11]; rfl)
                      case false =>
                        cases hb12 : (r.SensorType == "Rain Gauge")
                        case true => first
                          | rfl
                          | (rw [eq_of_beq hb12]; rfl)
                        case false =>
                          cases hb13 : (r.SensorType == "Rain Rate")
                          case true => first
                            | rfl
                            | (rw [eq_of_beq hb13]; rfl)
                          case false =>
                            cases hb14 : (r.SensorType == "Solar Radiation Sensor")
                            case true => first
                              | rfl
                              | (rw [eq_of_beq hb14]; rfl)
                            case false =>
                              cases hb15 : (r.SensorType == "UV Radiation Sensor")
                              case true => first
                                | rfl
                                | (rw [eq_of_beq hb15]; rfl)
                              case false => rfl

/-- One loop iteration writes the `Rain Gauge` unit slot exactly when the
reading carries that label. -/
theorem stepU_rain0 (rose : Bool) (st : WeatherData × WeatherUnits)
    (r : ReadingInfo) :
    (processReading rose st r).2.Rain0 =
      if r.SensorType == "Rain Gauge" then r.UnitSymbol
      else st.2.Rain0 := by
  unfold processReading
  cases hb1 : (r.SensorType == "Thermometer")
  case true => first
    | rfl
    | (rw [eq_of_beq hb1]; rfl)
  case false =>
    cases hb2 : (r.SensorType == "Dewpoint")
    case true => first
      | rfl
      | (rw [eq_of_beq hb2]; rfl)
    case false =>
      cases hb3 : (r.SensorType == "Wet Bulb Globe Temperature")
      case true => first
        | rfl
        | (rw [eq_of_beq hb3]; rfl)
      case false =>
        cases hb4 : (r.SensorType == "Wind Chill")
        case true => first
          | rfl
          | (rw [eq_of_beq hb4]; rfl)
        case false =>
          cases hb5 : (r.SensorType == "Heat Index")
          case true => first
            | rfl
            | (rw [eq_of_beq hb5]; rfl)
          case false =>
            cases hb6 : (r.SensorType == "Hygrometer")
            case true => first
              | rfl
              | (rw [eq_of_beq hb6]; rfl)
            case false =>
              cases hb7 : (r.SensorType == "Anemometer")
              case true => first
                | rfl
                | (rw [eq_of_beq hb7]; rfl)
              case false =>
                cases hb8 : (r.SensorType == "10 Minute Wind Gust")
                case true => first
                  | rfl
                  | (rw [eq_of_beq hb8]; rfl)
                case false =>
                  cases hb9 : (r.SensorType == "Wind Vane")
                  case true => first
                    | rfl
                    | (rw [eq_of_beq hb9]; rfl)
                  case false =>
                    cases hb10 : (r.SensorType == "Barometer")
                    case true => first
                      | rfl
                      | (rw [eq_of_beq hb10]; rfl)
                    case false =>
                      cases hb11 : (r.SensorType == "Barometer Tendency")
                      case true => first
                        | rfl
                        | (rw [eq_of_beq hb11]; rfl)
                      case false =>
                        cases hb12 : (r.SensorType == "Rain Gauge")
                        case true => first
                          | rfl
                          | (rw [eq_of_beq hb12]; rfl)
                        case false =>
                          cases hb13 : (r.SensorType == "Rain Rate")
                          case true => first
                            | rfl
                            | (rw [eq_of_beq hb13]; rfl)
                          case false =>
                            cases hb14 : (r.SensorType == "Solar Radiation Sensor")
                            case true => first
                              | rfl
                              | (rw [eq_of_beq hb14]; rfl)
                            case false =>
                              cases hb15 : (r.SensorType == "UV Radiation Sensor")
                              case true => first
                                | rfl
                                | (rw [eq_of_beq hb15]; rfl)
                              case false => rfl

/-- One loop iteration writes the `Rain Rate` data slot exactly when the
reading carries that label. -/
theorem stepD_rain1 (rose : Bool) (st : WeatherData × WeatherUnits)
    (r : ReadingInfo) :
    (processReading rose st r).1.Rain1 =
      if r.SensorType == "Rain Rate" then parseFloatOr0 r.Value
      else st.1.Rain1 := by
  unfold processReading
  cases hb1 : (r.SensorType == "Thermometer")
  case true => first
    | rfl
    | (rw [eq_of_beq hb1]; rfl)
  case false =>
    cases hb2 : (r.SensorType == "Dewpoint")
    case true => first
      | rfl
      | (rw [eq_of_beq hb2]; rfl)
    case false =>
      cases hb3 : (r.SensorType == "Wet Bulb Globe Temperature")
      case true => first
        | rfl
        | (rw [eq_of_beq hb3]; rfl)
      case false =>
        cases hb4 : (r.SensorType == "Wind Chill")
        case true => first
          | rfl
          | (rw [eq_of_beq hb4]; rfl)
        case false =>
          cases hb5 : (r.SensorType == "Heat Index")
          case true => first
            | rfl
            | (rw [eq_of_beq hb5]; rfl)
          case false =>
            cases hb6 : (r.SensorType == "Hygrometer")
            case true => first
              | rfl
              | (rw [eq_of_beq hb6]; rfl)
            case false =>
              cases hb7 : (r.SensorType == "Anemometer")
              case true => first
                | rfl
                | (rw [eq_of_beq hb7]; rfl)
              case false =>
                cases hb8 : (r.SensorType == "10 Minute Wind Gust")
                case true => first
                  | rfl
                  | (rw [eq_of_beq hb8]; rfl)
                case false =>
                  cases hb9 : (r.SensorType == "Wind Vane")
                  case true => first
                    | rfl
                    | (rw [eq_of_beq hb9]; rfl)
                  case false =>
                    cases hb10 : (r.SensorType == "Barometer")
                    case true => first
                      | rfl
                      | (rw [eq_of_beq hb10]; rfl)
                    case false =>
                      cases hb11 : (r.SensorType == "Barometer Tendency")
                      case true => first
                        | rfl
                        | (rw [eq_of_beq hb11]; rfl)
                      case false =>
                        cases hb12 : (r.SensorType == "Rain Gauge")
                        case true => first
                          | rfl
                          | (rw [eq_of_beq hb12]; rfl)
                        case false =>
                          cases hb13 : (r.SensorType == "Rain Rate")
                          case true => first
                            | rfl
                            | (rw [eq_of_beq hb13]; rfl)
                          case false =>
                            cases hb14 : (r.SensorType == "Solar Radiation Sensor")
                            case true => first
                              | rfl
                              | (rw [eq_of_beq hb14]; rfl)
                            case false =>
                              cases hb15 : (r.SensorType == "UV Radiation Sensor")
                              case true => first
                                | rfl
                                | (rw [eq_of_beq hb15]; rfl)
                              case false => rfl

/-- One loop iteration writes the `Rain Rate` unit slot exactly when the
reading carries that label. -/
theorem stepU_rain1 (rose : Bool) (st : WeatherData × WeatherUnits)
    (r : ReadingInfo) :
    (processReading rose st r).2.Rain1 =
      if r.SensorType == "Rain Rate" then r.UnitSymbol
      else st.2.Rain1 := by
  unfold processReading
  cases hb1 : (r.SensorType == "Thermometer")
  case true => first
    | rfl
    | (rw [eq_of_beq hb1]; rfl)
  case false =>
    cases hb2 : (r.SensorType == "Dewpoint")
    case true => first
      | rfl
      | (rw [eq_of_beq hb2]; rfl)
    case false =>
      cases hb3 : (r.SensorType == "Wet Bulb Globe Temperature")
      case true => first
        | rfl
        | (rw [eq_of_beq hb3]; rfl)
      case false =>
        cases hb4 : (r.SensorType == "Wind Chill")
        case true => first
          | rfl
          | (rw [eq_of_beq hb4]; rfl)
        case false =>
          cases hb5 : (r.SensorType == "Heat Index")
          case true => first
            | rfl
            | (rw [eq_of_beq hb5]; rfl)
          case false =>
            cases hb6 : (r.SensorType == "Hygrometer")
            case true => first
              | rfl
              | (rw [eq_of_beq hb6]; rfl)
            case false =>
              cases hb7 : (r.SensorType == "Anemometer")
              case true => first
                | rfl
                | (rw [eq_of_beq hb7]; rfl)
              case false =>
                cases hb8 : (r.SensorType == "10 Minute Wind Gust")
                case true => first
                  | rfl
                  | (rw [eq_of_beq hb8]; rfl)
                case false =>
                  cases hb9 : (r.SensorType == "Wind Vane")
                  case true => first
                    | rfl
                    | (rw [eq_of_beq hb9]; rfl)
                  case false =>
                    cases hb10 : (r.SensorType == "Barometer")
                    case true => first
                      | rfl
                      | (rw [eq_of_beq hb10]; rfl)
                    case false =>
                      cases hb11 : (r.SensorType == "Barometer Tendency")
                      case true => first
                        | rfl
                        | (rw [eq_of_beq hb11]; rfl)
                      case false =>
                        cases hb12 : (r.SensorType == "Rain Gauge")
                        case true => first
                          | rfl
                          | (rw [eq_of_beq hb12]; rfl)
                        case false =>
                          cases hb13 : (r.SensorType == "Rain Rate")
                          case true => first
                            | rfl
                            | (rw [eq_of_beq hb13]; rfl)
                          case false =>
                            cases hb14 : (r.SensorType == "Solar Radiation Sensor")
                            case true => first
                              | rfl
                              | (rw [eq_of_beq hb14]; rfl)
                            case false =>
                              cases hb15 : (r.SensorType == "UV Radiation Sensor")
                              case true => first
                                | rfl
                                | (rw [eq_of_beq hb15]; rfl)
                              case false => rfl

/-- One loop iteration writes the `Solar Radiation Sensor` data slot exactly when the
reading carries that label. -/
theorem stepD_sun0 (rose : Bool) (st : WeatherData × WeatherUnits)
    (r : ReadingInfo) :
    (processReading rose st r).1.Sun0 =
      if r.SensorType == "Solar Radiation Sensor" then parseFloatOr0 r.Value
      else st.1.Sun0 := by
  unfold processReading
  cases hb1 : (r.SensorType == "Thermometer")
  case true => first
    | rfl
    | (rw [eq_of_beq hb1]; rfl)
  case false =>
    cases hb2 : (r.SensorType == "Dewpoint")
    case true => first
      | rfl
      | (rw [eq_of_beq hb2]; rfl)
    case false =>
      cases hb3 : (r.SensorType == "Wet Bulb Globe Temperature")
      case true => first
        | rfl
        | (rw [eq_of_beq hb3]; rfl)
      case false =>
        cases hb4 : (r.SensorType == "Wind Chill")
        case true => first
          | rfl
          | (rw [eq_of_beq hb4]; rfl)
        case false =>
          cases hb5 : (r.SensorType == "Heat Index")
          case true => first
            | rfl
            | (rw [eq_of_beq hb5]; rfl)
          case false =>
            cases hb6 : (r.SensorType == "Hygrometer")
            case true => first
              | rfl
              | (rw [eq_of_beq hb6]; rfl)
            case false =>
              cases hb7 : (r.SensorType == "Anemometer")
              case true => first
                | rfl
                | (rw [eq_of_beq hb7]; rfl)
              case false =>
                cases hb8 : (r.SensorType == "10 Minute Wind Gust")
                case true => first
                  | rfl
                  | (rw [eq_of_beq hb8]; rfl)
                case false =>
                  cases hb9 : (r.SensorType == "Wind Vane")
                  case true => first
                    | rfl
                    | (rw [eq_of_beq hb9]; rfl)
                  case false =>
                    cases hb10 : (r.SensorType == "Barometer")
                    case true => first
                      | rfl
                      | (rw [eq_of_beq hb10]; rfl)
                    case false =>
                      cases hb11 : (r.SensorType == "Barometer Tendency")
                      case true => first
                        | rfl
                        | (rw [eq_of_beq hb11]; rfl)
                      case false =>
                        cases hb12 : (r.SensorType == "Rain Gauge")
                        case true => first
                          | rfl
                          | (rw [eq_of_beq hb12]; rfl)
                        case false =>
                          cases hb13 : (r.SensorType == "Rain Rate")
                          case true => first
                            | rfl
                            | (rw [eq_of_beq hb13]; rfl)
                          case false =>
                            cases hb14 : (r.SensorType == "Solar Radiation Sensor")
                            case true => first
                              | rfl
                              | (rw [eq_of_beq hb14]; rfl)
                            case false =>
                              cases hb15 : (r.SensorType == "UV Radiation Sensor")
                              case true => first
                                | rfl
                                | (rw [eq_of_beq hb15]; rfl)
                              case false => rfl

/-- One loop iteration writes the `Solar Radiation Sensor` unit slot exactly when the
reading carries that label. -/
theorem stepU_sun0 (rose : Bool) (st : WeatherData × WeatherUnits)
    (r : ReadingInfo) :
    (processReading rose st r).2.Sun0 =
      if r.SensorType == "Solar Radiation Sensor" then r.UnitSymbol
      else st.2.Sun0 := by
  unfold processReading
  cases hb1 : (r.SensorType == "Thermometer")
  case true => first
    | rfl
    | (rw [eq_of_beq hb1]; rfl)
  case false =>
    cases hb2 : (r.SensorType == "Dewpoint")
    case true => first
      | rfl
      | (rw [eq_of_beq hb2]; rfl)
    case false =>
      cases hb3 : (r.SensorType == "Wet Bulb Globe Temperature")
      case true => first
        | rfl
        | (rw [eq_of_beq hb3]; rfl)
      case false =>
        cases hb4 : (r.SensorType == "Wind Chill")
        case true => first
          | rfl
          | (rw [eq_of_beq hb4]; rfl)
        case false =>
          cases hb5 : (r.SensorType == "Heat Index")
          case true => first
            | rfl
            | (rw [eq_of_beq hb5]; rfl)
          case false =>
            cases hb6 : (r.SensorType == "Hygrometer")
            case true => first
              | rfl
              | (rw [eq_of_beq hb6]; rfl)
            case false =>
              cases hb7 : (r.SensorType == "Anemometer")
              case true => first
                | rfl
                | (rw [eq_of_beq hb7]; rfl)
              case false =>
                cases hb8 : (r.SensorType == "10 Minute Wind Gust")
                case true => first
                  | rfl
                  | (rw [eq_of_beq hb8]; rfl)
                case false =>
                  cases hb9 : (r.SensorType == "Wind Vane")
                  case true => first
                    | rfl
                    | (rw [eq_of_beq hb9]; rfl)
                  case false =>
                    cases hb10 : (r.SensorType == "Barometer")
                    case true => first
                      | rfl
                      | (rw [eq_of_beq hb10]; rfl)
                    case false =>
                      cases hb11 : (r.SensorType == "Barometer Tendency")
                      case true => first
                        | rfl
                        | (rw [eq_of_beq hb11]; rfl)
                      case false =>
                        cases hb12 : (r.SensorType == "Rain Gauge")
                        case true => first
                          | rfl
                          | (rw [eq_of_beq hb12]; rfl)
                        case false =>
                          cases hb13 : (r.SensorType == "Rain Rate")
                          case true => first
                            | rfl
                            | (rw [eq_of_beq hb13]; rfl)
                          case false =>
                            cases hb14 : (r.SensorType == "Solar Radiation Sensor")
                            case true => first
                              | rfl
                              | (rw [eq_of_beq hb14]; rfl)
                            case false =>
                              cases hb15 : (r.SensorType == "UV Radiation Sensor")
                              case true => first
                                | rfl
                                | (rw [eq_of_beq hb15]; rfl)
                              case false => rfl

/-- One loop iteration writes the `UV Radiation Sensor` data slot exactly when the
reading carries that label. -/
theorem stepD_sun1 (rose : Bool) (st : WeatherData × WeatherUnits)
    (r : ReadingInfo) :
    (processReading rose st r).1.Sun1 =
      if r.SensorType == "UV Radiation Sensor" then parseFloatOr0 r.Value
      else st.1.Sun1 := by
  unfold processReading
  cases hb1 : (r.SensorType == "Thermometer")
  case true => first
    | rfl
    | (rw [eq_of_beq hb1]; rfl)
  case false =>
    cases hb2 : (r.SensorType == "Dewpoint")
    case true => first
      | rfl
      | (rw [eq_of_beq hb2]; rfl)
    case false =>
      cases hb3 : (r.SensorType == "Wet Bulb Globe Temperature")
      case true => first
        | rfl
        | (rw [eq_of_beq hb3]; rfl)
      case false =>
        cases hb4 : (r.SensorType == "Wind Chill")
        case true => first
          | rfl
          | (rw [eq_of_beq hb4]; rfl)
        case false =>
          cases hb5 : (r.SensorType == "Heat Index")
          case true => first
            | rfl
            | (rw [eq_of_beq hb5]; rfl)
          case false =>
            cases hb6 : (r.SensorType == "Hygrometer")
            case true => first
              | rfl
              | (rw [eq_of_beq hb6]; rfl)
            case false =>
              cases hb7 : (r.SensorType == "Anemometer")
              case true => first
                | rfl
                | (rw [eq_of_beq hb7]; rfl)
              case false =>
                cases hb8 : (r.SensorType == "10 Minute Wind Gust")
                case true => first
                  | rfl
                  | (rw [eq_of_beq hb8]; rfl)
                case false =>
                  cases hb9 : (r.SensorType == "Wind Vane")
                  case true => first
                    | rfl
                    | (rw [eq_of_beq hb9]; rfl)
                  case false =>
                    cases hb10 : (r.SensorType == "Barometer")
                    case true => first
                      | rfl
                      | (rw [eq_of_beq hb10]; rfl)
                    case false =>
                      cases hb11 : (r.SensorType == "Barometer Tendency")
                      case true => first
                        | rfl
                        | (rw [eq_of_beq hb11]; rfl)
                      case false =>
                        cases hb12 : (r.SensorType == "Rain Gauge")
                        case true => first
                          | rfl
                          | (rw [eq_of_beq hb12]; rfl)
                        case false =>
                          cases hb13 : (r.SensorType == "Rain Rate")
                          case true => first
                            | rfl
                            | (rw [eq_of_beq hb13]; rfl)
                          case false =>
                            cases hb14 : (r.SensorType == "Solar Radiation Sensor")
                            case true => first
                              | rfl
                              | (rw [eq_of_beq hb14]; rfl)
                            case false =>
                              cases hb15 : (r.SensorType == "UV Radiation Sensor")
                              case true => first
                                | rfl
                                | (rw [eq_of_beq hb15]; rfl)
                              case false => rfl

/-- One loop iteration writes the `UV Radiation Sensor` unit slot exactly when the
reading carries that label. -/
theorem stepU_sun1 (rose : Bool) (st : WeatherData × WeatherUnits)
    (r : ReadingInfo) :
    (processReading rose st r).2.Sun1 =
      if r.SensorType == "UV Radiation Sensor" then r.UnitSymbol
      else st.2.Sun1 := by
  unfold processReading
  cases hb1 : (r.SensorType == "Thermometer")
  case true => first
    | rfl
    | (rw [eq_of_beq hb1]; rfl)
  case false =>
    cases hb2 : (r.SensorType == "Dewpoint")
    case true => first
      | rfl
      | (rw [eq_of_beq hb2]; rfl)
    case false =>
      cases hb3 : (r.SensorType == "Wet Bulb Globe Temperature")
      case true => first
        | rfl
        | (rw [eq_of_beq hb3]; rfl)
      case false =>
        cases hb4 : (r.SensorType == "Wind Chill")
        case true => first
          | rfl
          | (rw [eq_of_beq hb4]; rfl)
        case false =>
          cases hb5 : (r.SensorType == "Heat Index")
          case true => first
            | rfl
            | (rw [eq_of_beq hb5]; rfl)
          case false =>
            cases hb6 : (r.SensorType == "Hygrometer")
            case true => first
              | rfl
              | (rw [eq_of_beq hb6]; rfl)
            case false =>
              cases hb7 : (r.SensorType == "Anemometer")
              case true => first
                | rfl
                | (rw [eq_of_beq hb7]; rfl)
              case false =>
                cases hb8 : (r.SensorType == "10 Minute Wind Gust")
                case true => first
                  | rfl
                  | (rw [eq_of_beq hb8]; rfl)
                case false =>
                  cases hb9 : (r.SensorType == "Wind Vane")
                  case true => first
                    | rfl
                    | (rw [eq_of_beq hb9]; rfl)
                  case false =>
                    cases hb10 : (r.SensorType == "Barometer")
                    case true => first
                      | rfl
                      | (rw [eq_of_beq hb10]; rfl)
                    case false =>
                      cases hb11 : (r.SensorType == "Barometer Tendency")
                      case true => first
                        | rfl
                        | (rw [eq_of_beq hb11]; rfl)
                      case false =>
                        cases hb12 : (r.SensorType == "Rain Gauge")
                        case true => first
                          | rfl
                          | (rw [eq_of_beq hb12]; rfl)
                        case false =>
                          cases hb13 : (r.SensorType == "Rain Rate")
                          case true => first
                            | rfl
                            | (rw [eq_of_beq hb13]; rfl)
                          case false =>
                            cases hb14 : (r.SensorType == "Solar Radiation Sensor")
                            case true => first
                              | rfl
                              | (rw [eq_of_beq hb14]; rfl)
                            case false =>
                              cases hb15 : (r.SensorType == "UV Radiation Sensor")
                              case true => first
                                | rfl
                                | (rw [eq_of_beq hb15]; rfl)
                              case false => rfl

/-- No loop iteration touches the derived station coordinate. -/
theorem stepD_topo (rose : Bool) (st : WeatherData × WeatherUnits)
    (r : ReadingInfo) :
    (processReading rose st r).1.StationTopo = st.1.StationTopo := by
  unfold processReading
  cases hb1 : (r.SensorType == "Thermometer")
  case true => first
    | rfl
    | (rw [eq_of_beq hb1]; rfl)
  case false =>
    cases hb2 : (r.SensorType == "Dewpoint")
    case true => first
      | rfl
      | (rw [eq_of_beq hb2]; rfl)
    case false =>
      cases hb3 : (r.SensorType == "Wet Bulb Globe Temperature")
      case true => first
        | rfl
        | (rw [eq_of_beq hb3]; rfl)
      case false =>
        cases hb4 : (r.SensorType == "Wind Chill")
        case true => first
          | rfl
          | (rw [eq_of_beq hb4]; rfl)
        case false =>
          cases hb5 : (r.SensorType == "Heat Index")
          case true => first
            | rfl
            | (rw [eq_of_beq hb5]; rfl)
          case false =>
            cases hb6 : (r.SensorType == "Hygrometer")
            case true => first
              | rfl
              | (rw [eq_of_beq hb6]; rfl)
            case false =>
              cases hb7 : (r.SensorType == "Anemometer")
              case true => first
                | rfl
                | (rw [eq_of_beq hb7]; rfl)
              case false =>
                cases hb8 : (r.SensorType == "10 Minute Wind Gust")
                case true => first
                  | rfl
                  | (rw [eq_of_beq hb8]; rfl)
                case false =>
                  cases hb9 : (r.SensorType == "Wind Vane")
                  case true => first
                    | rfl
                    | (rw [eq_of_beq hb9]; rfl)
                  case false =>
                    cases hb10 : (r.SensorType == "Barometer")
                    case true => first
                      | rfl
                      | (rw [eq_of_beq hb10]; rfl)
                    case false =>
                      cases hb11 : (r.SensorType == "Barometer Tendency")
                      case true => first
                        | rfl
                        | (rw [eq_of_beq hb11]; rfl)
                      case false =>
                        cases hb12 : (r.SensorType == "Rain Gauge")
                        case true => first
                          | rfl
                          | (rw [eq_of_beq hb12]; rfl)
                        case false =>
                          cases hb13 : (r.SensorType == "Rain Rate")
                          case true => first
                            | rfl
                            | (rw [eq_of_beq hb13]; rfl)
                          case false =>
                            cases hb14 : (r.SensorType == "Solar Radiation Sensor")
                            case true => first
                              | rfl
                              | (rw [eq_of_beq hb14]; rfl)
                            case false =>
                              cases hb15 : (r.SensorType == "UV Radiation Sensor")
                              case true => first
                                | rfl
                                | (rw [eq_of_beq hb15]; rfl)
                              case false => rfl

/-- A reading whose label is not one of the 15 recognized sensor types
falls through every branch of the dispatch chain and leaves the state
unchanged (the trailing `// else ignore the unknown` of the source). -/
theorem processReading_unknown (rose : Bool) (st : WeatherData × WeatherUnits)
    (r : ReadingInfo) (hr : r.SensorType ∉ knownSensorTypes) :
    processReading rose st r = st := by
  unfold processReading
  cases hb1 : (r.SensorType == "Thermometer")
  case true =>
    exact absurd (by rw [eq_of_beq hb1]; decide) hr
  case false =>
    cases hb2 : (r.SensorType == "Dewpoint")
    case true =>
      exact absurd (by rw [eq_of_beq hb2]; decide) hr
    case false =>
      cases hb3 : (r.SensorType == "Wet Bulb Globe Temperature")
      case true =>
        exact absurd (by rw [eq_of_beq hb3]; decide) hr
      case false =>
        cases hb4 : (r.SensorType == "Wind Chill")
        case true =>
          exact absurd (by rw [eq_of_beq hb4]; decide) hr
        case false =>
          cases hb5 : (r.SensorType == "Heat Index")
          case true =>
            exact absurd (by rw [eq_of_beq hb5]; decide) hr
          case false =>
            cases hb6 : (r.SensorType == "Hygrometer")
            case true =>
              exact absurd (by rw [eq_of_beq hb6]; decide) hr
            case false =>
              cases hb7 : (r.SensorType == "Anemometer")
              case true =>
                exact absurd (by rw [eq_of_beq hb7]; decide) hr
              case false =>
                cases hb8 : (r.SensorType == "10 Minute Wind Gust")
                case true =>
                  exact absurd (by rw [eq_of_beq hb8]; decide) hr
                case false =>
                  cases hb9 : (r.SensorType == "Wind Vane")
                  case true =>
                    exact absurd (by rw [eq_of_beq hb9]; decide) hr
                  case false =>
                    cases hb10 : (r.SensorType == "Barometer")
                    case true =>
                      exact absurd (by rw [eq_of_beq hb10]; decide) hr
                    case false =>
                      cases hb11 : (r.SensorType == "Barometer Tendency")
                      case true =>
                        exact absurd (by rw [eq_of_beq hb11]; decide) hr
                      case false =>
                        cases hb12 : (r.SensorType == "Rain Gauge")
                        case true =>
                          exact absurd (by rw [eq_of_beq hb12]; decide) hr
                        case false =>
                          cases hb13 : (r.SensorType == "Rain Rate")
                          case true =>
                            exact absurd (by rw [eq_of_beq hb13]; decide) hr
                          case false =>
                            cases hb14 : (r.SensorType == "Solar Radiation Sensor")
                            case true =>
                              exact absurd (by rw [eq_of_beq hb14]; decide) hr
                            case false =>
                              cases hb15 : (r.SensorType == "UV Radiation Sensor")
                              case true =>
                                exact absurd (by rw [eq_of_beq hb15]; decide) hr
                              case false => rfl

/-- C3: a reading with an unrecognized label is ignored: the result of
`PopulateWeatherData` on a sequence containing it is identical to the result
on the same sequence with that reading removed. -/
theorem c3_unknown_reading_ignored (station : StationInfo) (rec : RecordInfo)
    (rose : Bool) (xs ys : List ReadingInfo) (r : ReadingInfo)
    (hr : r.SensorType ∉ knownSensorTypes) :
    PopulateWeatherData ⟨{ rec with RecordReadings := xs ++ r :: ys }, station⟩ rose =
      PopulateWeatherData ⟨{ rec with RecordReadings := xs ++ ys }, station⟩ rose := by
  simp only [PopulateWeatherData]
  rw [List.foldl_append, List.foldl_append, List.foldl_cons,
      processReading_unknown rose _ r hr]
  rfl

/-- C2: when exactly two readings of the sequence share a known label, the
corresponding slot pair of the result holds the second (later-in-sequence)
reading's parsed value and unit symbol: last write wins. -/
theorem c2_last_write_wins (winfo : WeatherInfo) (rose : Bool) (L : String)
    (r1 r2 : ReadingInfo)
    (hf : winfo.WeatherRecord.RecordReadings.filter
        (fun r => r.SensorType == L) = [r1, r2]) :
      (L = "Thermometer" →
        (PopulateWeatherData winfo rose).1.Temperature0 = parseFloatOr0 r2.Value ∧
        (PopulateWeatherData winfo rose).2.Temperature0 = r2.UnitSymbol) ∧
      (L = "Dewpoint" →
        (PopulateWeatherData winfo rose).1.Temperature1 = parseFloatOr0 r2.Value ∧
        (PopulateWeatherData winfo rose).2.Temperature1 = r2.UnitSymbol) ∧
      (L = "Wet Bulb Globe Temperature" →
        (PopulateWeatherData winfo rose).1.Temperature2 = parseFloatOr0 r2.Value ∧
        (PopulateWeatherData winfo rose).2.Temperature2 = r2.UnitSymbol) ∧
      (L = "Wind Chill" →
        (PopulateWeatherData winfo rose).1.Temperature3 = parseFloatOr0 r2.Value ∧
        (PopulateWeatherData winfo rose).2.Temperature3 = r2.UnitSymbol) ∧
      (L = "Heat Index" →
        (PopulateWeatherData winfo rose).1.Temperature4 = parseFloatOr0 r2.Value ∧
        (PopulateWeatherData winfo rose).2.Temperature4 = r2.UnitSymbol) ∧
      (L = "Hygrometer" →
        (PopulateWeatherData winfo rose).1.Humidity = parseFloatOr0 r2.Value ∧
        (PopulateWeatherData winfo rose).2.Humidity = r2.UnitSymbol) ∧
      (L = "Anemometer" →
        (PopulateWeatherData winfo rose).1.Windspeed0 = parseFloatOr0 r2.Value ∧
        (PopulateWeatherData winfo rose).2.Windspeed0 = r2.UnitSymbol) ∧
      (L = "10 Minute Wind Gust" →
        (PopulateWeatherData winfo rose).1.Windspeed1 = parseFloatOr0 r2.Value ∧
        (PopulateWeatherData winfo rose).2.Windspeed1 = r2.UnitSymbol) ∧
      (L = "Wind Vane" →
        (PopulateWeatherData winfo rose).1.Windspeed2 = parseFloatOr0 r2.Value ∧
        (PopulateWeatherData winfo rose).2.Windspeed2 = r2.UnitSymbol) ∧
      (L = "Barometer" →
        (PopulateWeatherData winfo rose).1.Pressure = parseFloatOr0 r2.Value ∧
        (PopulateWeatherData winfo rose).2.Pressure = r2.UnitSymbol) ∧
      (L = "Barometer Tendency" →
        (PopulateWeatherData winfo rose).1.PressureTrend = r2.Value ∧
        (PopulateWeatherData winfo rose).2.PressureTrend = r2.UnitSymbol) ∧
      (L = "Rain Gauge" →
        (PopulateWeatherData winfo rose).1.Rain0 = parseFloatOr0 r2.Value ∧
        (PopulateWeatherData winfo rose).2.Rain0 = r2.UnitSymbol) ∧
      (L = "Rain Rate" →
        (PopulateWeatherData winfo rose).1.Rain1 = parseFloatOr0 r2.Value ∧
        (PopulateWeatherData winfo rose).2.Rain1 = r2.UnitSymbol) ∧
      (L = "Solar Radiation Sensor" →
        (PopulateWeatherData winfo rose).1.Sun0 = parseFloatOr0 r2.Value ∧
        (PopulateWeatherData winfo rose).2.Sun0 = r2.UnitSymbol) ∧
      (L = "UV Radiation Sensor" →
        (PopulateWeatherData winfo rose).1.Sun1 = parseFloatOr0 r2.Value ∧
        (PopulateWeatherData winfo rose).2.Sun1 = r2.UnitSymbol) := by
  refine ⟨?_, ?_, ?_, ?_, ?_, ?_, ?_, ?_, ?_, ?_, ?_, ?_, ?_, ?_, ?_⟩
  · intro hL
    subst hL
    simp only [PopulateWeatherData]
    exact ⟨slot_foldl_two rose (fun q => q.1.Temperature0)
        (fun r => r.SensorType == "Thermometer") (fun r => parseFloatOr0 r.Value)
        (fun st r => stepD_temp0 rose st r) _ _ r1 r2 hf,
      slot_foldl_two rose (fun q => q.2.Temperature0)
        (fun r => r.SensorType == "Thermometer") (fun r => r.UnitSymbol)
        (fun st r => stepU_temp0 rose st r) _ _ r1 r2 hf⟩
  · intro hL
    subst hL
    simp only [PopulateWeatherData]
    exact ⟨slot_foldl_two rose (fun q => q.1.Temperature1)
        (fun r => r.SensorType == "Dewpoint") (fun r => parseFloatOr0 r.Value)
        (fun st r => stepD_temp1 rose st r) _ _ r1 r2 hf,
      slot_foldl_two rose (fun q => q.2.Temperature1)
        (fun r => r.SensorType == "Dewpoint") (fun r => r.UnitSymbol)
        (fun st r => stepU_temp1 rose st r) _ _ r1 r2 hf⟩
  · intro hL
    subst hL
    simp only [PopulateWeatherData]
    exact ⟨slot_foldl_two rose (fun q => q.1.Temperature2)
        (fun r => r.SensorType == "Wet Bulb Globe Temperature") (fun r => parseFloatOr0 r.Value)
        (fun st r => stepD_temp2 rose st r) _ _ r1 r2 hf,
      slot_foldl_two rose (fun q => q.2.Temperature2)
        (fun r => r.SensorType == "Wet Bulb Globe Temperature") (fun r => r.UnitSymbol)
        (fun st r => stepU_temp2 rose st r) _ _ r1 r2 hf⟩
  · intro hL
    subst hL
    simp only [PopulateWeatherData]
    exact ⟨slot_foldl_two rose (fun q => q.1.Temperature3)
        (fun r => r.SensorType == "Wind Chill") (fun r => parseFloatOr0 r.Value)
        (fun st r => stepD_temp3 rose st r) _ _ r1 r2 hf,
      slot_foldl_two rose (fun q => q.2.Temperature3)
        (fun r => r.SensorType == "Wind Chill") (fun r => r.UnitSymbol)
        (fun st r => stepU_temp3 rose st r) _ _ r1 r2 hf⟩
  · intro hL
    subst hL
    simp only [PopulateWeatherData]
    exact ⟨slot_foldl_two rose (fun q => q.1.Temperature4)
        (fun r => r.SensorType == "Heat Index") (fun r => parseFloatOr0 r.Value)
        (fun st r => stepD_temp4 rose st r) _ _ r1 r2 hf,
      slot_foldl_two rose (fun q => q.2.Temperature4)
        (fun r => r.SensorType == "Heat Index") (fun r => r.UnitSymbol)
        (fun st r => stepU_temp4 rose st r) _ _ r1 r2 hf⟩
  · intro hL
    subst hL
    simp only [PopulateWeatherData]
    exact ⟨slot_foldl_two rose (fun q => q.1.Humidity)
        (fun r => r.SensorType == "Hygrometer") (fun r => parseFloatOr0 r.Value)
        (fun st r => stepD_humidity rose st r) _ _ r1 r2 hf,
      slot_foldl_two rose (fun q => q.2.Humidity)
        (fun r => r.SensorType == "Hygrometer") (fun r => r.UnitSymbol)
        (fun st r => stepU_humidity rose st r) _ _ r1 r2 hf⟩
  · intro hL
    subst hL
    simp only [PopulateWeatherData]
    exact ⟨slot_foldl_two rose (fun q => q.1.Windspeed0)
        (fun r => r.SensorType == "Anemometer") (fun r => parseFloatOr0 r.Value)
        (fun st r => stepD_wspd0 rose st r) _ _ r1 r2 hf,
      slot_foldl_two rose (fun q => q.2.Windspeed0)
        (fun r => r.SensorType == "Anemometer") (fun r => r.UnitSymbol)
        (fun st r => stepU_wspd0 rose st r) _ _ r1 r2 hf⟩
  · intro hL
    subst hL
    simp only [PopulateWeatherData]
    exact ⟨slot_foldl_two rose (fun q => q.1.Windspeed1)
        (fun r => r.SensorType == "10 Minute Wind Gust") (fun r => parseFloatOr0 r.Value)
        (fun st r => stepD_wspd1 rose st r) _ _ r1 r2 hf,
      slot_foldl_two rose (fun q => q.2.Windspeed1)
        (fun r => r.SensorType == "10 Minute Wind Gust") (fun r => r.UnitSymbol)
        (fun st r => stepU_wspd1 rose st r) _ _ r1 r2 hf⟩
  · intro hL
    subst hL
    simp only [PopulateWeatherData]
    exact ⟨slot_foldl_two rose (fun q => q.1.Windspeed2)
        (fun r => r.SensorType == "Wind Vane") (fun r => parseFloatOr0 r.Value)
        (fun st r => stepD_wspd2 rose st r) _ _ r1 r2 hf,
      slot_foldl_two rose (fun q => q.2.Windspeed2)
        (fun r => r.SensorType == "Wind Vane") (fun r => r.UnitSymbol)
        (fun st r => stepU_wspd2 rose st r) _ _ r1 r2 hf⟩
  · intro hL
    subst hL
    simp only [PopulateWeatherData]
    exact ⟨slot_foldl_two rose (fun q => q.1.Pressure)
        (fun r => r.SensorType == "Barometer") (fun r => parseFloatOr0 r.Value)
        (fun st r => stepD_pressure rose st r) _ _ r1 r2 hf,
      slot_foldl_two rose (fun q => q.2.Pressure)
        (fun r => r.SensorType == "Barometer") (fun r => r.UnitSymbol)
        (fun st r => stepU_pressure rose st r) _ _ r1 r2 hf⟩
  · intro hL
    subst hL
    simp only [PopulateWeatherData]
    exact ⟨slot_foldl_two rose (fun q => q.1.PressureTrend)
        (fun r => r.SensorType == "Barometer Tendency") (fun r => r.Value)
        (fun st r => stepD_ptrend rose st r) _ _ r1 r2 hf,
      slot_foldl_two rose (fun q => q.2.PressureTrend)
        (fun r => r.SensorType == "Barometer Tendency") (fun r => r.UnitSymbol)
        (fun st r => stepU_ptrend rose st r) _ _ r1 r2 hf⟩
  · intro hL
    subst hL
    simp only [PopulateWeatherData]
    exact ⟨slot_foldl_two rose (fun q => q.1.Rain0)
        (fun r => r.SensorType == "Rain Gauge") (fun r => parseFloatOr0 r.Value)
        (fun st r => stepD_rain0 rose st r) _ _ r1 r2 hf,
      slot_foldl_two rose (fun q => q.2.Rain0)
        (fun r => r.SensorType == "Rain Gauge") (fun r => r.UnitSymbol)
        (fun st r => stepU_rain0 rose st r) _ _ r1 r2 hf⟩
  · intro hL
    subst hL
    simp only [PopulateWeatherData]
    exact ⟨slot_foldl_two rose (fun q => q.1.Rain1)
        (fun r => r.SensorType == "Rain Rate") (fun r => parseFloatOr0 r.Value)
        (fun st r => stepD_rain1 rose st r) _ _ r1 r2 hf,
      slot_foldl_two rose (fun q => q.2.Rain1)
        (fun r => r.SensorType == "Rain Rate") (fun r => r.UnitSymbol)
        (fun st r => stepU_rain1 rose st r) _ _ r1 r2 hf⟩
  · intro hL
    subst hL
    simp only [PopulateWeatherData]
    exact ⟨slot_foldl_two rose (fun q => q.1.Sun0)
        (fun r => r.SensorType == "Solar Radiation Sensor") (fun r => parseFloatOr0 r.Value)
        (fun st r => stepD_sun0 rose st r) _ _ r1 r2 hf,
      slot_foldl_two rose (fun q => q.2.Sun0)
        (fun r => r.SensorType == "Solar Radiation Sensor") (fun r => r.UnitSymbol)
        (fun st r => stepU_sun0 rose st r) _ _ r1 r2 hf⟩
  · intro hL
    subst hL
    simp only [PopulateWeatherData]
    exact ⟨slot_foldl_two rose (fun q => q.1.Sun1)
        (fun r => r.SensorType == "UV Radiation Sensor") (fun r => parseFloatOr0 r.Value)
        (fun st r => stepD_sun1 rose st r) _ _ r1 r2 hf,
      slot_foldl_two rose (fun q => q.2.Sun1)
        (fun r => r.SensorType == "UV Radiation Sensor") (fun r => r.UnitSymbol)
        (fun st r => stepU_sun1 rose st r) _ _ r1 r2 hf⟩

/-- C9: `PopulateWeatherData` is a total function of its inputs (it is a
Lean `def`, so it never raises), and a known sensor type absent from the
reading sequence leaves its data slot at the zero value and its unit slot at
the empty string. -/
theorem c9_absent_slot_default (winfo : WeatherInfo) (rose : Bool) (L : String)
    (hf : winfo.WeatherRecord.RecordReadings.filter
        (fun r => r.SensorType == L) = []) :
      (L = "Thermometer" →
        (PopulateWeatherData winfo rose).1.Temperature0 = 0 ∧
        (PopulateWeatherData winfo rose).2.Temperature0 = "") ∧
      (L = "Dewpoint" →
        (PopulateWeatherData winfo rose).1.Temperature1 = 0 ∧
        (PopulateWeatherData winfo rose).2.Temperature1 = "") ∧
      (L = "Wet Bulb Globe Temperature" →
        (PopulateWeatherData winfo rose).1.Temperature2 = 0 ∧
        (PopulateWeatherData winfo rose).2.Temperature2 = "") ∧
      (L = "Wind Chill" →
        (PopulateWeatherData winfo rose).1.Temperature3 = 0 ∧
        (PopulateWeatherData winfo rose).2.Temperature3 = "") ∧
      (L = "Heat Index" →
        (PopulateWeatherData winfo rose).1.Temperature4 = 0 ∧
        (PopulateWeatherData winfo rose).2.Temperature4 = "") ∧
      (L = "Hygrometer" →
        (PopulateWeatherData winfo rose).1.Humidity = 0 ∧
        (PopulateWeatherData winfo rose).2.Humidity = "") ∧
      (L = "Anemometer" →
        (PopulateWeatherData winfo rose).1.Windspeed0 = 0 ∧
        (PopulateWeatherData winfo rose).2.Windspeed0 = "") ∧
      (L = "10 Minute Wind Gust" →
        (PopulateWeatherData winfo rose).1.Windspeed1 = 0 ∧
        (PopulateWeatherData winfo rose).2.Windspeed1 = "") ∧
      (L = "Wind Vane" →
        (PopulateWeatherData winfo rose).1.Windspeed2 = 0 ∧
        (PopulateWeatherData winfo rose).2.Windspeed2 = "") ∧
      (L = "Barometer" →
        (PopulateWeatherData winfo rose).1.Pressure = 0 ∧
        (PopulateWeatherData winfo rose).2.Pressure = "") ∧
      (L = "Barometer Tendency" →
        (PopulateWeatherData winfo rose).1.PressureTrend = "" ∧
        (PopulateWeatherData winfo rose).2.PressureTrend = "") ∧
      (L = "Rain Gauge" →
        (PopulateWeatherData winfo rose).1.Rain0 = 0 ∧
        (PopulateWeatherData winfo rose).2.Rain0 = "") ∧
      (L = "Rain Rate" →
        (PopulateWeatherData winfo rose).1.Rain1 = 0 ∧
        (PopulateWeatherData winfo rose).2.Rain1 = "") ∧
      (L = "Solar Radiation Sensor" →
        (PopulateWeatherData winfo rose).1.Sun0 = 0 ∧
        (PopulateWeatherData winfo rose).2.Sun0 = "") ∧
      (L = "UV Radiation Sensor" →
        (PopulateWeatherData winfo rose).1.Sun1 = 0 ∧
        (PopulateWeatherData winfo rose).2.Sun1 = "") := by
  refine ⟨?_, ?_, ?_, ?_, ?_, ?_, ?_, ?_, ?_, ?_, ?_, ?_, ?_, ?_, ?_⟩
  · intro hL
    subst hL
    simp only [PopulateWeatherData]
    exact ⟨(slot_foldl_nil rose (fun q => q.1.Temperature0)
        (fun r => r.SensorType == "Thermometer") (fun r => parseFloatOr0 r.Value)
        (fun st r => stepD_temp0 rose st r) _ _ hf).trans rfl,
      (slot_foldl_nil rose (fun q => q.2.Temperature0)
        (fun r => r.SensorType == "Thermometer") (fun r => r.UnitSymbol)
        (fun st r => stepU_temp0 rose st r) _ _ hf).trans rfl⟩
  · intro hL
    subst hL
    simp only [PopulateWeatherData]
    exact ⟨(slot_foldl_nil rose (fun q => q.1.Temperature1)
        (fun r => r.SensorType == "Dewpoint") (fun r => parseFloatOr0 r.Value)
        (fun st r => stepD_temp1 rose st r) _ _ hf).trans rfl,
      (slot_foldl_nil rose (fun q => q.2.Temperature1)
        (fun r => r.SensorType == "Dewpoint") (fun r => r.UnitSymbol)
        (fun st r => stepU_temp1 rose st r) _ _ hf).trans rfl⟩
  · intro hL
    subst hL
    simp only [PopulateWeatherData]
    exact ⟨(slot_foldl_nil rose (fun q => q.1.Temperature2)
        (fun r => r.SensorType == "Wet Bulb Globe Temperature") (fun r => parseFloatOr0 r.Value)
        (fun st r => stepD_temp2 rose st r) _ _ hf).trans rfl,
      (slot_foldl_nil rose (fun q => q.2.Temperature2)
        (fun r => r.SensorType == "Wet Bulb Globe Temperature") (fun r => r.UnitSymbol)
        (fun st r => stepU_temp2 rose st r) _ _ hf).trans rfl⟩
  · intro hL
    subst hL
    simp only [PopulateWeatherData]
    exact ⟨(slot_foldl_nil rose (fun q => q.1.Temperature3)
        (fun r => r.SensorType == "Wind Chill") (fun r => parseFloatOr0 r.Value)
        (fun st r => stepD_temp3 rose st r) _ _ hf).trans rfl,
      (slot_foldl_nil rose (fun q => q.2.Temperature3)
        (fun r => r.SensorType == "Wind Chill") (fun r => r.UnitSymbol)
        (fun st r => stepU_temp3 rose st r) _ _ hf).trans rfl⟩
  · intro hL
    subst hL
    simp only [PopulateWeatherData]
    exact ⟨(slot_foldl_nil rose (fun q => q.1.Temperature4)
        (fun r => r.SensorType == "Heat Index") (fun r => parseFloatOr0 r.Value)
        (fun st r => stepD_temp4 rose st r) _ _ hf).trans rfl,
      (slot_foldl_nil rose (fun q => q.2.Temperature4)
        (fun r => r.SensorType == "Heat Index") (fun r => r.UnitSymbol)
        (fun st r => stepU_temp4 rose st r) _ _ hf).trans rfl⟩
  · intro hL
    subst hL
    simp only [PopulateWeatherData]
    exact ⟨(slot_foldl_nil rose (fun q => q.1.Humidity)
        (fun r => r.SensorType == "Hygrometer") (fun r => parseFloatOr0 r.Value)
        (fun st r => stepD_humidity rose st r) _ _ hf).trans rfl,
      (slot_foldl_nil rose (fun q => q.2.Humidity)
        (fun r => r.SensorType == "Hygrometer") (fun r => r.UnitSymbol)
        (fun st r => stepU_humidity rose st r) _ _ hf).trans rfl⟩
  · intro hL
    subst hL
    simp only [PopulateWeatherData]
    exact ⟨(slot_foldl_nil rose (fun q => q.1.Windspeed0)
        (fun r => r.SensorType == "Anemometer") (fun r => parseFloatOr0 r.Value)
        (fun st r => stepD_wspd0 rose st r) _ _ hf).trans rfl,
      (slot_foldl_nil rose (fun q => q.2.Windspeed0)
        (fun r => r.SensorType == "Anemometer") (fun r => r.UnitSymbol)
        (fun st r => stepU_wspd0 rose st r) _ _ hf).trans rfl⟩
  · intro hL
    subst hL
    simp only [PopulateWeatherData]
    exact ⟨(slot_foldl_nil rose (fun q => q.1.Windspeed1)
        (fun r => r.SensorType == "10 Minute Wind Gust") (fun r => parseFloatOr0 r.Value)
        (fun st r => stepD_wspd1 rose st r) _ _ hf).trans rfl,
      (slot_foldl_nil rose (fun q => q.2.Windspeed1)
        (fun r => r.SensorType == "10 Minute Wind Gust") (fun r => r.UnitSymbol)
        (fun st r => stepU_wspd1 rose st r) _ _ hf).trans rfl⟩
  · intro hL
    subst hL
    simp only [PopulateWeatherData]
    exact ⟨(slot_foldl_nil rose (fun q => q.1.Windspeed2)
        (fun r => r.SensorType == "Wind Vane") (fun r => parseFloatOr0 r.Value)
        (fun st r => stepD_wspd2 rose st r) _ _ hf).trans rfl,
      (slot_foldl_nil rose (fun q => q.2.Windspeed2)
        (fun r => r.SensorType == "Wind Vane") (fun r => r.UnitSymbol)
        (fun st r => stepU_wspd2 rose st r) _ _ hf).trans rfl⟩
  · intro hL
    subst hL
    simp only [PopulateWeatherData]
    exact ⟨(slot_foldl_nil rose (fun q => q.1.Pressure)
        (fun r => r.SensorType == "Barometer") (fun r => parseFloatOr0 r.Value)
        (fun st r => stepD_pressure rose st r) _ _ hf).trans rfl,
      (slot_foldl_nil rose (fun q => q.2.Pressure)
        (fun r => r.SensorType == "Barometer") (fun r => r.UnitSymbol)
        (fun st r => stepU_pressure rose st r) _ _ hf).trans rfl⟩
  · intro hL
    subst hL
    simp only [PopulateWeatherData]
    exact ⟨(slot_foldl_nil rose (fun q => q.1.PressureTrend)
        (fun r => r.SensorType == "Barometer Tendency") (fun r => r.Value)
        (fun st r => stepD_ptrend rose st r) _ _ hf).trans rfl,
      (slot_foldl_nil rose (fun q => q.2.PressureTrend)
        (fun r => r.SensorType == "Barometer Tendency") (fun r => r.UnitSymbol)
        (fun st r => stepU_ptrend rose st r) _ _ hf).trans rfl⟩
  · intro hL
    subst hL
    simp only [PopulateWeatherData]
    exact ⟨(slot_foldl_nil rose (fun q => q.1.Rain0)
        (fun r => r.SensorType == "Rain Gauge") (fun r => parseFloatOr0 r.Value)
        (fun st r => stepD_rain0 rose st r) _ _ hf).trans rfl,
      (slot_foldl_nil rose (fun q => q.2.Rain0)
        (fun r => r.SensorType == "Rain Gauge") (fun r => r.UnitSymbol)
        (fun st r => stepU_rain0 rose st r) _ _ hf).trans rfl⟩
  · intro hL
    subst hL
    simp only [PopulateWeatherData]
    exact ⟨(slot_foldl_nil rose (fun q => q.1.Rain1)
        (fun r => r.SensorType == "Rain Rate") (fun r => parseFloatOr0 r.Value)
        (fun st r => stepD_rain1 rose st r) _ _ hf).trans rfl,
      (slot_foldl_nil rose (fun q => q.2.Rain1)
        (fun r => r.SensorType == "Rain Rate") (fun r => r.UnitSymbol)
        (fun st r => stepU_rain1 rose st r) _ _ hf).trans rfl⟩
  · intro hL
    subst hL
    simp only [PopulateWeatherData]
    exact ⟨(slot_foldl_nil rose (fun q => q.1.Sun0)
        (fun r => r.SensorType == "Solar Radiation Sensor") (fun r => parseFloatOr0 r.Value)
        (fun st r => stepD_sun0 rose st r) _ _ hf).trans rfl,
      (slot_foldl_nil rose (fun q => q.2.Sun0)
        (fun r => r.SensorType == "Solar Radiation Sensor") (fun r => r.UnitSymbol)
        (fun st r => stepU_sun0 rose st r) _ _ hf).trans rfl⟩
  · intro hL
    subst hL
    simp only [PopulateWeatherData]
    exact ⟨(slot_foldl_nil rose (fun q => q.1.Sun1)
        (fun r => r.SensorType == "UV Radiation Sensor") (fun r => parseFloatOr0 r.Value)
        (fun st r => stepD_sun1 rose st r) _ _ hf).trans rfl,
      (slot_foldl_nil rose (fun q => q.2.Sun1)
        (fun r => r.SensorType == "UV Radiation Sensor") (fun r => r.UnitSymbol)
        (fun st r => stepU_sun1 rose st r) _ _ hf).trans rfl⟩

/-- C1 (amended): for a reading sequence holding exactly one reading for
each of the 15 known sensor-type labels, each with a parseable non-zero
value and a non-empty unit symbol, every sensor slot of the result holds the
parsed value (the raw value for the categorical barometer-tendency slot) and
its unit symbol, and no data or unit slot is left at its zero/empty
default. -/
theorem c1_all_slots_populated
    (winfo : WeatherInfo) (rose : Bool)
    (r1 : ReadingInfo)
    (hf1 : winfo.WeatherRecord.RecordReadings.filter
        (fun r => r.SensorType == "Thermometer") = [r1])
    (hv1 : parseFloatOr0 r1.Value ≠ 0) (hu1 : r1.UnitSymbol ≠ "")
    (r2 : ReadingInfo)
    (hf2 : winfo.WeatherRecord.RecordReadings.filter
        (fun r => r.SensorType == "Dewpoint") = [r2])
    (hv2 : parseFloatOr0 r2.Value ≠ 0) (hu2 : r2.UnitSymbol ≠ "")
    (r3 : ReadingInfo)
    (hf3 : winfo.WeatherRecord.RecordReadings.filter
        (fun r => r.SensorType == "Wet Bulb Globe Temperature") = [r3])
    (hv3 : parseFloatOr0 r3.Value ≠ 0) (hu3 : r3.UnitSymbol ≠ "")
    (r4 : ReadingInfo)
    (hf4 : winfo.WeatherRecord.RecordReadings.filter
        (fun r => r.SensorType == "Wind Chill") = [r4])
    (hv4 : parseFloatOr0 r4.Value ≠ 0) (hu4 : r4.UnitSymbol ≠ "")
    (r5 : ReadingInfo)
    (hf5 : winfo.WeatherRecord.RecordReadings.filter
        (fun r => r.SensorType == "Heat Index") = [r5])
    (hv5 : parseFloatOr0 r5.Value ≠ 0) (hu5 : r5.UnitSymbol ≠ "")
    (r6 : ReadingInfo)
    (hf6 : winfo.WeatherRecord.RecordReadings.filter
        (fun r => r.SensorType == "Hygrometer") = [r6])
    (hv6 : parseFloatOr0 r6.Value ≠ 0) (hu6 : r6.UnitSymbol ≠ "")
    (r7 : ReadingInfo)
    (hf7 : winfo.WeatherRecord.RecordReadings.filter
        (fun r => r.SensorType == "Anemometer") = [r7])
    (hv7 : parseFloatOr0 r7.Value ≠ 0) (hu7 : r7.UnitSymbol ≠ "")
    (r8 : ReadingInfo)
    (hf8 : winfo.WeatherRecord.RecordReadings.filter
        (fun r => r.SensorType == "10 Minute Wind Gust") = [r8])
    (hv8 : parseFloatOr0 r8.Value ≠ 0) (hu8 : r8.UnitSymbol ≠ "")
    (r9 : ReadingInfo)
    (hf9 : winfo.WeatherRecord.RecordReadings.filter
        (fun r => r.SensorType == "Wind Vane") = [r9])
    (hv9 : parseFloatOr0 r9.Value ≠ 0) (hu9 : r9.UnitSymbol ≠ "")
    (r10 : ReadingInfo)
    (hf10 : winfo.WeatherRecord.RecordReadings.filter
        (fun r => r.SensorType == "Barometer") = [r10])
    (hv10 : parseFloatOr0 r10.Value ≠ 0) (hu10 : r10.UnitSymbol ≠ "")
    (r11 : ReadingInfo)
    (hf11 : winfo.WeatherRecord.RecordReadings.filter
        (fun r => r.SensorType == "Barometer Tendency") = [r11])
    (hv11 : parseFloatOr0 r11.Value ≠ 0) (hu11 : r11.UnitSymbol ≠ "")
    (r12 : ReadingInfo)
    (hf12 : winfo.WeatherRecord.RecordReadings.filter
        (fun r => r.SensorType == "Rain Gauge") = [r12])
    (hv12 : parseFloatOr0 r12.Value ≠ 0) (hu12 : r12.UnitSymbol ≠ "")
    (r13 : ReadingInfo)
    (hf13 : winfo.WeatherRecord.RecordReadings.filter
        (fun r => r.SensorType == "Rain Rate") = [r13])
    (hv13 : parseFloatOr0 r13.Value ≠ 0) (hu13 : r13.UnitSymbol ≠ "")
    (r14 : ReadingInfo)
    (hf14 : winfo.WeatherRecord.RecordReadings.filter
        (fun r => r.SensorType == "Solar Radiation Sensor") = [r14])
    (hv14 : parseFloatOr0 r14.Value ≠ 0) (hu14 : r14.UnitSymbol ≠ "")
    (r15 : ReadingInfo)
    (hf15 : winfo.WeatherRecord.RecordReadings.filter
        (fun r => r.SensorType == "UV Radiation Sensor") = [r15])
    (hv15 : parseFloatOr0 r15.Value ≠ 0) (hu15 : r15.UnitSymbol ≠ "") :
      ((PopulateWeatherData winfo rose).1.Temperature0 = parseFloatOr0 r1.Value ∧
        (PopulateWeatherData winfo rose).1.Temperature0 ≠ 0 ∧
        (PopulateWeatherData winfo rose).2.Temperature0 = r1.UnitSymbol ∧
        (PopulateWeatherData winfo rose).2.Temperature0 ≠ "") ∧
      ((PopulateWeatherData winfo rose).1.Temperature1 = parseFloatOr0 r2.Value ∧
        (PopulateWeatherData winfo rose).1.Temperature1 ≠ 0 ∧
        (PopulateWeatherData winfo rose).2.Temperature1 = r2.UnitSymbol ∧
        (PopulateWeatherData winfo rose).2.Temperature1 ≠ "") ∧
      ((PopulateWeatherData winfo rose).1.Temperature2 = parseFloatOr0 r3.Value ∧
        (PopulateWeatherData winfo rose).1.Temperature2 ≠ 0 ∧
        (PopulateWeatherData winfo rose).2.Temperature2 = r3.UnitSymbol ∧
        (PopulateWeatherData winfo rose).2.Temperature2 ≠ "") ∧
      ((PopulateWeatherData winfo rose).1.Temperature3 = parseFloatOr0 r4.Value ∧
        (PopulateWeatherData winfo rose).1.Temperature3 ≠ 0 ∧
        (PopulateWeatherData winfo rose).2.Temperature3 = r4.UnitSymbol ∧
        (PopulateWeatherData winfo rose).2.Temperature3 ≠ "") ∧
      ((PopulateWeatherData winfo rose).1.Temperature4 = parseFloatOr0 r5.Value ∧
        (PopulateWeatherData winfo rose).1.Temperature4 ≠ 0 ∧
        (PopulateWeatherData winfo rose).2.Temperature4 = r5.UnitSymbol ∧
        (PopulateWeatherData winfo rose).2.Temperature4 ≠ "") ∧
      ((PopulateWeatherData winfo rose).1.Humidity = parseFloatOr0 r6.Value ∧
        (PopulateWeatherData winfo rose).1.Humidity ≠ 0 ∧
        (PopulateWeatherData winfo rose).2.Humidity = r6.UnitSymbol ∧
        (PopulateWeatherData winfo rose).2.Humidity ≠ "") ∧
      ((PopulateWeatherData winfo rose).1.Windspeed0 = parseFloatOr0 r7.Value ∧
        (PopulateWeatherData winfo rose).1.Windspeed0 ≠ 0 ∧
        (PopulateWeatherData winfo rose).2.Windspeed0 = r7.UnitSymbol ∧
        (PopulateWeatherData winfo rose).2.Windspeed0 ≠ "") ∧
      ((PopulateWeatherData winfo rose).1.Windspeed1 = parseFloatOr0 r8.Value ∧
        (PopulateWeatherData winfo rose).1.Windspeed1 ≠ 0 ∧
        (PopulateWeatherData winfo rose).2.Windspeed1 = r8.UnitSymbol ∧
        (PopulateWeatherData winfo rose).2.Windspeed1 ≠ "") ∧
      ((PopulateWeatherData winfo rose).1.Windspeed2 = parseFloatOr0 r9.Value ∧
        (PopulateWeatherData winfo rose).1.Windspeed2 ≠ 0 ∧
        (PopulateWeatherData winfo rose).2.Windspeed2 = r9.UnitSymbol ∧
        (PopulateWeatherData winfo rose).2.Windspeed2 ≠ "") ∧
      ((PopulateWeatherData winfo rose).1.Pressure = parseFloatOr0 r10.Value ∧
        (PopulateWeatherData winfo rose).1.Pressure ≠ 0 ∧
        (PopulateWeatherData winfo rose).2.Pressure = r10.UnitSymbol ∧
        (PopulateWeatherData winfo rose).2.Pressure ≠ "") ∧
      ((PopulateWeatherData winfo rose).1.PressureTrend = r11.Value ∧
        (PopulateWeatherData winfo rose).1.PressureTrend ≠ "" ∧
        (PopulateWeatherData winfo rose).2.PressureTrend = r11.UnitSymbol ∧
        (PopulateWeatherData winfo rose).2.PressureTrend ≠ "") ∧
      ((PopulateWeatherData winfo rose).1.Rain0 = parseFloatOr0 r12.Value ∧
        (PopulateWeatherData winfo rose).1.Rain0 ≠ 0 ∧
        (PopulateWeatherData winfo rose).2.Rain0 = r12.UnitSymbol ∧
        (PopulateWeatherData winfo rose).2.Rain0 ≠ "") ∧
      ((PopulateWeatherData winfo rose).1.Rain1 = parseFloatOr0 r13.Value ∧
        (PopulateWeatherData winfo rose).1.Rain1 ≠ 0 ∧
        (PopulateWeatherData winfo rose).2.Rain1 = r13.UnitSymbol ∧
        (PopulateWeatherData winfo rose).2.Rain1 ≠ "") ∧
      ((PopulateWeatherData winfo rose).1.Sun0 = parseFloatOr0 r14.Value ∧
        (PopulateWeatherData winfo rose).1.Sun0 ≠ 0 ∧
        (PopulateWeatherData winfo rose).2.Sun0 = r14.UnitSymbol ∧
        (PopulateWeatherData winfo rose).2.Sun0 ≠ "") ∧
      ((PopulateWeatherData winfo rose).1.Sun1 = parseFloatOr0 r15.Value ∧
        (PopulateWeatherData winfo rose).1.Sun1 ≠ 0 ∧
        (PopulateWeatherData winfo rose).2.Sun1 = r15.UnitSymbol ∧
        (PopulateWeatherData winfo rose).2.Sun1 ≠ "") := by
  simp only [PopulateWeatherData]
  have eD1 := slot_foldl_one rose (fun q => q.1.Temperature0)
      (fun r => r.SensorType == "Thermometer") (fun r => parseFloatOr0 r.Value)
      (fun st r => stepD_temp0 rose st r) _
      (initialWeatherData winfo, initialWeatherUnits winfo) r1 hf1
  have eU1 := slot_foldl_one rose (fun q => q.2.Temperature0)
      (fun r => r.SensorType == "Thermometer") (fun r => r.UnitSymbol)
      (fun st r => stepU_temp0 rose st r) _
      (initialWeatherData winfo, initialWeatherUnits winfo) r1 hf1
  have eD2 := slot_foldl_one rose (fun q => q.1.Temperature1)
      (fun r => r.SensorType == "Dewpoint") (fun r => parseFloatOr0 r.Value)
      (fun st r => stepD_temp1 rose st r) _
      (initialWeatherData winfo, initialWeatherUnits winfo) r2 hf2
  have eU2 := slot_foldl_one rose (fun q => q.2.Temperature1)
      (fun r => r.SensorType == "Dewpoint") (fun r => r.UnitSymbol)
      (fun st r => stepU_temp1 rose st r) _
      (initialWeatherData winfo, initialWeatherUnits winfo) r2 hf2
  have eD3 := slot_foldl_one rose (fun q => q.1.Temperature2)
      (fun r => r.SensorType == "Wet Bulb Globe Temperature") (fun r => parseFloatOr0 r.Value)
      (fun st r => stepD_temp2 rose st r) _
      (initialWeatherData winfo, initialWeatherUnits winfo) r3 hf3
  have eU3 := slot_foldl_one rose (fun q => q.2.Temperature2)
      (fun r => r.SensorType == "Wet Bulb Globe Temperature") (fun r => r.UnitSymbol)
      (fun st r => stepU_temp2 rose st r) _
      (initialWeatherData winfo, initialWeatherUnits winfo) r3 hf3
  have eD4 := slot_foldl_one rose (fun q => q.1.Temperature3)
      (fun r => r.SensorType == "Wind Chill") (fun r => parseFloatOr0 r.Value)
      (fun st r => stepD_temp3 rose st r) _
      (initialWeatherData winfo, initialWeatherUnits winfo) r4 hf4
  have eU4 := slot_foldl_one rose (fun q => q.2.Temperature3)
      (fun r => r.SensorType == "Wind Chill") (fun r => r.UnitSymbol)
      (fun st r => stepU_temp3 rose st r) _
      (initialWeatherData winfo, initialWeatherUnits winfo) r4 hf4
  have eD5 := slot_foldl_one rose (fun q => q.1.Temperature4)
      (fun r => r.SensorType == "Heat Index") (fun r => parseFloatOr0 r.Value)
      (fun st r => stepD_temp4 rose st r) _
      (initialWeatherData winfo, initialWeatherUnits winfo) r5 hf5
  have eU5 := slot_foldl_one rose (fun q => q.2.Temperature4)
      (fun r => r.SensorType == "Heat Index") (fun r => r.UnitSymbol)
      (fun st r => stepU_temp4 rose st r) _
      (initialWeatherData winfo, initialWeatherUnits winfo) r5 hf5
  have eD6 := slot_foldl_one rose (fun q => q.1.Humidity)
      (fun r => r.SensorType == "Hygrometer") (fun r => parseFloatOr0 r.Value)
      (fun st r => stepD_humidity rose st r) _
      (initialWeatherData winfo, initialWeatherUnits winfo) r6 hf6
  have eU6 := slot_foldl_one rose (fun q => q.2.Humidity)
      (fun r => r.SensorType == "Hygrometer") (fun r => r.UnitSymbol)
      (fun st r => stepU_humidity rose st r) _
      (initialWeatherData winfo, initialWeatherUnits winfo) r6 hf6
  have eD7 := slot_foldl_one rose (fun q => q.1.Windspeed0)
      (fun r => r.SensorType == "Anemometer") (fun r => parseFloatOr0 r.Value)
      (fun st r => stepD_wspd0 rose st r) _
      (initialWeatherData winfo, initialWeatherUnits winfo) r7 hf7
  have eU7 := slot_foldl_one rose (fun q => q.2.Windspeed0)
      (fun r => r.SensorType == "Anemometer") (fun r => r.UnitSymbol)
      (fun st r => stepU_wspd0 rose st r) _
      (initialWeatherData winfo, initialWeatherUnits winfo) r7 hf7
  have eD8 := slot_foldl_one rose (fun q => q.1.Windspeed1)
      (fun r => r.SensorType == "10 Minute Wind Gust") (fun r => parseFloatOr0 r.Value)
      (fun st r => stepD_wspd1 rose st r) _
      (initialWeatherData winfo, initialWeatherUnits winfo) r8 hf8
  have eU8 := slot_foldl_one rose (fun q => q.2.Windspeed1)
      (fun r => r.SensorType == "10 Minute Wind Gust") (fun r => r.UnitSymbol)
      (fun st r => stepU_wspd1 rose st r) _
      (initialWeatherData winfo, initialWeatherUnits winfo) r8 hf8
  have eD9 := slot_foldl_one rose (fun q => q.1.Windspeed2)
      (fun r => r.SensorType == "Wind Vane") (fun r => parseFloatOr0 r.Value)
      (fun st r => stepD_wspd2 rose st r) _
      (initialWeatherData winfo, initialWeatherUnits winfo) r9 hf9
  have eU9 := slot_foldl_one rose (fun q => q.2.Windspeed2)
      (fun r => r.SensorType == "Wind Vane") (fun r => r.UnitSymbol)
      (fun st r => stepU_wspd2 rose st r) _
      (initialWeatherData winfo, initialWeatherUnits winfo) r9 hf9
  have eD10 := slot_foldl_one rose (fun q => q.1.Pressure)
      (fun r => r.SensorType == "Barometer") (fun r => parseFloatOr0 r.Value)
      (fun st r => stepD_pressure rose st r) _
      (initialWeatherData winfo, initialWeatherUnits winfo) r10 hf10
  have eU10 := slot_foldl_one rose (fun q => q.2.Pressure)
      (fun r => r.SensorType == "Barometer") (fun r => r.UnitSymbol)
      (fun st r => stepU_pressure rose st r) _
      (initialWeatherData winfo, initialWeatherUnits winfo) r10 hf10
  have eD11 := slot_foldl_one rose (fun q => q.1.PressureTrend)
      (fun r => r.SensorType == "Barometer Tendency") (fun r => r.Value)
      (fun st r => stepD_ptrend rose st r) _
      (initialWeatherData winfo, initialWeatherUnits winfo) r11 hf11
  have eU11 := slot_foldl_one rose (fun q => q.2.PressureTrend)
      (fun r => r.SensorType == "Barometer Tendency") (fun r => r.UnitSymbol)
      (fun st r => stepU_ptrend rose st r) _
      (initialWeatherData winfo, initialWeatherUnits winfo) r11 hf11
  have hne11 : r11.Value ≠ "" := fun h => hv11 (by rw [h]; rfl)
  have eD12 := slot_foldl_one rose (fun q => q.1.Rain0)
      (fun r => r.SensorType == "Rain Gauge") (fun r => parseFloatOr0 r.Value)
      (fun st r => stepD_rain0 rose st r) _
      (initialWeatherData winfo, initialWeatherUnits winfo) r12 hf12
  have eU12 := slot_foldl_one rose (fun q => q.2.Rain0)
      (fun r => r.SensorType == "Rain Gauge") (fun r => r.UnitSymbol)
      (fun st r => stepU_rain0 rose st r) _
      (initialWeatherData winfo, initialWeatherUnits winfo) r12 hf12
  have eD13 := slot_foldl_one rose (fun q => q.1.Rain1)
      (fun r => r.SensorType == "Rain Rate") (fun r => parseFloatOr0 r.Value)
      (fun st r => stepD_rain1 rose st r) _
      (initialWeatherData winfo, initialWeatherUnits winfo) r13 hf13
  have eU13 := slot_foldl_one rose (fun q => q.2.Rain1)
      (fun r => r.SensorType == "Rain Rate") (fun r => r.UnitSymbol)
      (fun st r => stepU_rain1 rose st r) _
      (initialWeatherData winfo, initialWeatherUnits winfo) r13 hf13
  have eD14 := slot_foldl_one rose (fun q => q.1.Sun0)
      (fun r => r.SensorType == "Solar Radiation Sensor") (fun r => parseFloatOr0 r.Value)
      (fun st r => stepD_sun0 rose st r) _
      (initialWeatherData winfo, initialWeatherUnits winfo) r14 hf14
  have eU14 := slot_foldl_one rose (fun q => q.2.Sun0)
      (fun r => r.SensorType == "Solar Radiation Sensor") (fun r => r.UnitSymbol)
      (fun st r => stepU_sun0 rose st r) _
      (initialWeatherData winfo, initialWeatherUnits winfo) r14 hf14
  have eD15 := slot_foldl_one rose (fun q => q.1.Sun1)
      (fun r => r.SensorType == "UV Radiation Sensor") (fun r => parseFloatOr0 r.Value)
      (fun st r => stepD_sun1 rose st r) _
      (initialWeatherData winfo, initialWeatherUnits winfo) r15 hf15
  have eU15 := slot_foldl_one rose (fun q => q.2.Sun1)
      (fun r => r.SensorType == "UV Radiation Sensor") (fun r => r.UnitSymbol)
      (fun st r => stepU_sun1 rose st r) _
      (initialWeatherData winfo, initialWeatherUnits winfo) r15 hf15
  exact ⟨⟨eD1, fun h => hv1 (eD1.symm.trans h), eU1, fun h => hu1 (eU1.symm.trans h)⟩,
    ⟨eD2, fun h => hv2 (eD2.symm.trans h), eU2, fun h => hu2 (eU2.symm.trans h)⟩,
    ⟨eD3, fun h => hv3 (eD3.symm.trans h), eU3, fun h => hu3 (eU3.symm.trans h)⟩,
    ⟨eD4, fun h => hv4 (eD4.symm.trans h), eU4, fun h => hu4 (eU4.symm.trans h)⟩,
    ⟨eD5, fun h => hv5 (eD5.symm.trans h), eU5, fun h => hu5 (eU5.symm.trans h)⟩,
    ⟨eD6, fun h => hv6 (eD6.symm.trans h), eU6, fun h => hu6 (eU6.symm.trans h)⟩,
    ⟨eD7, fun h => hv7 (eD7.symm.trans h), eU7, fun h => hu7 (eU7.symm.trans h)⟩,
    ⟨eD8, fun h => hv8 (eD8.symm.trans h), eU8, fun h => hu8 (eU8.symm.trans h)⟩,
    ⟨eD9, fun h => hv9 (eD9.symm.trans h), eU9, fun h => hu9 (eU9.symm.trans h)⟩,
    ⟨eD10, fun h => hv10 (eD10.symm.trans h), eU10, fun h => hu10 (eU10.symm.trans h)⟩,
    ⟨eD11, fun h => hne11 (eD11.symm.trans h), eU11, fun h => hu11 (eU11.symm.trans h)⟩,
    ⟨eD12, fun h => hv12 (eD12.symm.trans h), eU12, fun h => hu12 (eU12.symm.trans h)⟩,
    ⟨eD13, fun h => hv13 (eD13.symm.trans h), eU13, fun h => hu13 (eU13.symm.trans h)⟩,
    ⟨eD14, fun h => hv14 (eD14.symm.trans h), eU14, fun h => hu14 (eU14.symm.trans h)⟩,
    ⟨eD15, fun h => hv15 (eD15.symm.trans h), eU15, fun h => hu15 (eU15.symm.trans h)⟩⟩


/-- The reading loop never changes the derived station coordinate. -/
theorem foldl_topo_invariant (rose : Bool) (rs : List ReadingInfo) :
    ∀ st : WeatherData × WeatherUnits,
      (rs.foldl (processReading rose) st).1.StationTopo = st.1.StationTopo := by
  induction rs with
  | nil => intro st; rfl
  | cons r rs ih => intro st; rw [List.foldl_cons, ih, stepD_topo]

/-- C8: when both station coordinate strings fail to parse, the derived
station coordinate of the result is exactly `(0, 0)`; no error is raised
(the embedding is a total function) and the rest of the record is still
normalized by the same reading loop. -/
theorem c8_bad_coordinate_yields_zero (winfo : WeatherInfo) (rose : Bool)
    (hlat : ParseFloat winfo.WeatherStation.Latitude = none)
    (hlon : ParseFloat winfo.WeatherStation.Longitude = none) :
    (PopulateWeatherData winfo rose).1.StationTopo = ⟨0, 0⟩ := by
  have h1 : parseFloatOr0 winfo.WeatherStation.Latitude = 0 := by
    unfold parseFloatOr0; rw [hlat]; rfl
  have h2 : parseFloatOr0 winfo.WeatherStation.Longitude = 0 := by
    unfold parseFloatOr0; rw [hlon]; rfl
  simp only [PopulateWeatherData]
  rw [foldl_topo_invariant]
  show Coord.Calc ⟨parseFloatOr0 winfo.WeatherStation.Latitude,
      parseFloatOr0 winfo.WeatherStation.Longitude⟩ = ⟨0, 0⟩
  rw [h1, h2]
  rfl

/-- Go string comparison is reflexive. -/
theorem goLeChars_refl (l : List Char) : goLeChars l l = true := by
  induction l with
  | nil => rfl
  | cons a as ih => simp [goLeChars, ih]

/-- C4: a config file whose extracted version string is lexically newer than
the supported version makes `getConfigSettings` panic with the version
mismatch message; no config is produced. -/
theorem c4_newer_version_fatal (unmarshal : String → Option configSettings)
    (content v : String)
    (hv : extractVersion content = Except.ok v)
    (hgt : goStringLe v configSettingsVersion = false) :
    (getConfigSettings unmarshal (some content)).1 =
      ConfigOutcome.panicked
        ("Config version mismatch, " ++ v ++ " should be " ++
          configSettingsVersion) := by
  have hne : v ≠ configSettingsVersion := by
    intro h
    rw [h, show goStringLe configSettingsVersion configSettingsVersion = true
        from goLeChars_refl _] at hgt
    exact absurd hgt (by decide)
  simp only [getConfigSettings, hv, if_neg hne, hgt]
  simp

/-- C6: a config file declaring exactly the supported version whose content
parses structurally yields the parsed configuration verbatim, with no
defaulting applied to any field. -/
theorem c6_exact_version_verbatim (unmarshal : String → Option configSettings)
    (content : String) (c : configSettings)
    (hv : extractVersion content = Except.ok configSettingsVersion)
    (hu : unmarshal content = some c) :
    (getConfigSettings unmarshal (some content)).1 = ConfigOutcome.ok c := by
  simp only [getConfigSettings, hv, if_pos rfl, hu]
  rfl

/-- C5: a config file declaring a lexically older version whose content
parses structurally with the operator location at its zero value yields a
configuration whose location is the fixed fallback coordinate
`(40.7678, -73.9814)`, and a migration warning is reported. -/
theorem c5_older_version_fallback (unmarshal : String → Option configSettings)
    (content v : String) (c : configSettings)
    (hv : extractVersion content = Except.ok v)
    (hne : v ≠ configSettingsVersion)
    (hle : goStringLe v configSettingsVersion = true)
    (hu : unmarshal content = some c)
    (hme : c.Me = ⟨0, 0⟩) :
    (getConfigSettings unmarshal (some content)).1 =
        ConfigOutcome.ok { c with Me := ⟨40.7678, -73.9814⟩ } ∧
      (getConfigSettings unmarshal (some content)).2 ≠ [] := by
  constructor
  · simp only [getConfigSettings, hv, if_neg hne, hle, hu, hme]
    simp [calcMe, Coord.Calc]
  · simp only [getConfigSettings, hv, if_neg hne, hle, hu]
    simp

/-- C10: in the older-version migration path the fallback is applied per
coordinate component: an operator location parsed as `(0, x)` with `x ≠ 0`
becomes `(40.7678, x)` — the zero latitude is replaced even though the
operator may have supplied it deliberately. -/
theorem c10_componentwise_fallback (unmarshal : String → Option configSettings)
    (content v : String) (c : configSettings) (x : Rat)
    (hv : extractVersion content = Except.ok v)
    (hne : v ≠ configSettingsVersion)
    (hle : goStringLe v configSettingsVersion = true)
    (hu : unmarshal content = some c)
    (hlat : c.Me.lat = 0) (hlon : c.Me.lon = x) (hx : x ≠ 0) :
    (getConfigSettings unmarshal (some content)).1 =
      ConfigOutcome.ok { c with Me := ⟨40.7678, x⟩ } := by
  subst hlon
  simp only [getConfigSettings, hv, if_neg hne, hle, hu, hlat]
  simp [calcMe, Coord.Calc, hx]


/-- Opening a readable file never produces the open-error outcome: every
failure after a successful open is a panic. -/
theorem getConfigSettings_some_ne_openError
    (unmarshal : String → Option configSettings) (s : String) :
    (getConfigSettings unmarshal (some s)).1 ≠ ConfigOutcome.openError := by
  unfold getConfigSettings
  cases hev : extractVersion s with
  | error msg => simp [hev]
  | ok v =>
      simp only [hev]
      by_cases h1 : v = configSettingsVersion
      · simp only [if_pos h1]
        cases hu : unmarshal s <;> simp
      · simp only [if_neg h1]
        by_cases h2 : goStringLe v configSettingsVersion = true
        · simp only [h2, if_true]
          cases hu : unmarshal s <;> simp
        · simp only [h2, if_false, Bool.false_eq_true]
          simp

/-- Probing a readable candidate is final: its outcome is returned. -/
theorem probeFiles_cons_some (unmarshal : String → Option configSettings)
    (fs : String → Option String) (c : String) (rest : List String)
    (s : String) (hc : fs c = some s) :
    probeFiles unmarshal fs (c :: rest) = getConfigSettings unmarshal (some s) := by
  unfold probeFiles
  rw [hc]
  rcases hgc : getConfigSettings unmarshal (some s) with ⟨out, warns⟩
  cases out with
  | openError =>
      exact absurd (by rw [hgc]) (getConfigSettings_some_ne_openError unmarshal s)
  | panicked m => rfl
  | ok cfg => rfl

/-- Probing an unreadable candidate moves on to the remaining candidates. -/
theorem probeFiles_cons_none (unmarshal : String → Option configSettings)
    (fs : String → Option String) (c : String) (rest : List String)
    (hc : fs c = none) :
    probeFiles unmarshal fs (c :: rest) = probeFiles unmarshal fs rest := by
  simp only [probeFiles]
  rw [hc]
  rfl

/-- C7: with `HOME` set, `findConfigSettings` probes exactly
`./weatherstem.json`, `$HOME/.weatherstem.json`,
`$HOME/.config/weatherstem.json` in that order, uses the first readable
candidate without merging across files, and yields the config-not-found
open error precisely when all three are unreadable. -/
theorem c7_probe_order (unmarshal : String → Option configSettings)
    (home : String) (fs : String → Option String) :
    ((findConfigSettings unmarshal (some home) fs).1 = ConfigOutcome.openError ↔
      fs "weatherstem.json" = none ∧
      fs (home ++ "/.weatherstem.json") = none ∧
      fs (home ++ "/.config/weatherstem.json") = none) ∧
    (fs "weatherstem.json" ≠ none →
      findConfigSettings unmarshal (some home) fs =
        getConfigSettings unmarshal (fs "weatherstem.json")) ∧
    (fs "weatherstem.json" = none →
      fs (home ++ "/.weatherstem.json") ≠ none →
      findConfigSettings unmarshal (some home) fs =
        getConfigSettings unmarshal (fs (home ++ "/.weatherstem.json"))) ∧
    (fs "weatherstem.json" = none →
      fs (home ++ "/.weatherstem.json") = none →
      findConfigSettings unmarshal (some home) fs =
        getConfigSettings unmarshal (fs (home ++ "/.config/weatherstem.json"))) := by
  refine ⟨⟨?_, ?_⟩, ?_, ?_, ?_⟩
  · intro hres
    rcases hc1 : fs "weatherstem.json" with _ | s1
    · rcases hc2 : fs (home ++ "/.weatherstem.json") with _ | s2
      · rcases hc3 : fs (home ++ "/.config/weatherstem.json") with _ | s3
        · exact ⟨rfl, rfl, rfl⟩
        · exfalso
          apply getConfigSettings_some_ne_openError unmarshal s3
          rw [← hres]
          simp only [findConfigSettings]
          rw [probeFiles_cons_none unmarshal fs _ _ hc1,
              probeFiles_cons_none unmarshal fs _ _ hc2,
              probeFiles_cons_some unmarshal fs _ _ s3 hc3]
      · exfalso
        apply getConfigSettings_some_ne_openError unmarshal s2
        rw [← hres]
        simp only [findConfigSettings]
        rw [probeFiles_cons_none unmarshal fs _ _ hc1,
            probeFiles_cons_some unmarshal fs _ _ s2 hc2]
    · exfalso
      apply getConfigSettings_some_ne_openError unmarshal s1
      rw [← hres]
      simp only [findConfigSettings]
      rw [probeFiles_cons_some unmarshal fs _ _ s1 hc1]
  · rintro ⟨hc1, hc2, hc3⟩
    simp only [findConfigSettings]
    rw [probeFiles_cons_none unmarshal fs _ _ hc1,
        probeFiles_cons_none unmarshal fs _ _ hc2,
        probeFiles_cons_none unmarshal fs _ _ hc3]
    rfl
  · intro h1
    obtain ⟨s1, hs1⟩ := Option.ne_none_iff_exists'.mp h1
    simp only [findConfigSettings]
    rw [probeFiles_cons_some unmarshal fs _ _ s1 hs1, hs1]
  · intro h1 h2
    obtain ⟨s2, hs2⟩ := Option.ne_none_iff_exists'.mp h2
    simp only [findConfigSettings]
    rw [probeFiles_cons_none unmarshal fs _ _ h1,
        probeFiles_cons_some unmarshal fs _ _ s2 hs2, hs2]
  · intro h1 h2
    simp only [findConfigSettings]
    rw [probeFiles_cons_none unmarshal fs _ _ h1,
        probeFiles_cons_none unmarshal fs _ _ h2]
    rcases hc3 : fs (home ++ "/.config/weatherstem.json") with _ | s3
    · rw [probeFiles_cons_none unmarshal fs _ _ hc3]
      rfl
    · rw [probeFiles_cons_some unmarshal fs _ _ s3 hc3]


/-! ### Concrete instances -/

/-- A reading carrying only the fields the normalizer consumes. -/
def mkReading (t v u : String) : ReadingInfo :=
  { ID := "", Sensor := "", SensorType := t, TransmitterID := "",
    Unit := "", UnitSymbol := u, Value := v }

/-- An empty high/low block. -/
def exHilo : HiloInfo := ⟨"", "", "", "", "", "", "", "", ""⟩

/-- A concrete station. -/
def exStation : StationInfo :=
  { Domain := ⟨"", ""⟩, Cameras := [], Name := "Station One", Handle := "st1",
    Longitude := "-81.0", Latitude := "29.1", FacebookID := "", TwitterID := "",
    WundergroundID := "" }

/-- A concrete record around a given reading list. -/
def mkRecord (rs : List ReadingInfo) : RecordInfo :=
  { RecordReadings := rs, LastRainTime := "", ReadingsTimestamp := "ts",
    RecordID := "", RecordHiLo := exHilo, RecordTimestamp := "",
    RecordDataDerived := 0, StationDown := "" }

/-- A concrete `WeatherInfo` around a given reading list. -/
def mkWinfo (rs : List ReadingInfo) : WeatherInfo := ⟨mkRecord rs, exStation⟩

/-- One reading per each of the first 14 known labels. -/
def c1CexReadings : List ReadingInfo :=
  (knownSensorTypes.take 14).map fun t => mkReading t "1" "u"

/-- One reading per each of the 15 known labels. -/
def c1AllReadings : List ReadingInfo :=
  knownSensorTypes.map fun t => mkReading t "1" "u"

/-- Two readings sharing the `Hygrometer` label. -/
def c2Readings : List ReadingInfo :=
  [mkReading "Hygrometer" "1" "a", mkReading "Hygrometer" "2" "b"]

/-- A station whose coordinate strings do not parse as numbers. -/
def c8Station : StationInfo :=
  { exStation with Latitude := "n/a", Longitude := "down" }

/-- A config text declaring version 4.0 (no structural layout needed: the
version sniffing scans raw text). -/
def c4Content : String := "cfg \"version\": \"4.0\" end"

/-- A config text declaring version 2.0. -/
def c5Content : String := "cfg \"version\": \"2.0\" end"

/-- A config text declaring version 3.0. -/
def c6Content : String := "cfg \"version\": \"3.0\" end"

/-- A parsed older-version config with the operator location at its zero
value. -/
def c5Cfg : configSettings :=
  { Version := "2.0", URL := "u", Key := "k", Stations := ["s1"], Me := ⟨0, 0⟩ }

/-- A parsed current-version config with a non-zero operator location. -/
def c6Cfg : configSettings :=
  { Version := "3.0", URL := "u", Key := "k", Stations := ["s1"], Me := ⟨1, 2⟩ }

/-- A parsed older-version config with latitude zero and longitude 5. -/
def c10Cfg : configSettings :=
  { Version := "2.0", URL := "u", Key := "k", Stations := [], Me := ⟨0, 5⟩ }

/-- A file system with no readable file. -/
def fsNone : String → Option String := fun _ => none

/-- A JSON decoder stub that never succeeds (standing in for a file whose
structural parse fails; the version scan does not use it). -/
def umNone : String → Option configSettings := fun _ => none

/-- C1 counterexample: the claim speaks of 14 known sensor-type labels, but
the dispatch chain recognizes 15; a sequence holding exactly one parseable
non-zero reading with a non-empty unit for each of 14 distinct known labels
still leaves the remaining label's slot pair (`UV Radiation Sensor`, slot
`Sun1`) at its zero/empty default. -/
theorem c1_fourteen_labels_counterexample :
    knownSensorTypes.length = 15 ∧
    c1CexReadings.map (fun r => r.SensorType) = knownSensorTypes.take 14 ∧
    ((knownSensorTypes.take 14).all fun L =>
      (c1CexReadings.filter fun r => r.SensorType == L).length == 1) = true ∧
    (c1CexReadings.all fun r =>
      decide (parseFloatOr0 r.Value ≠ 0) && decide (r.UnitSymbol ≠ "")) = true ∧
    (PopulateWeatherData (mkWinfo c1CexReadings) false).1.Sun1 = 0 ∧
    (PopulateWeatherData (mkWinfo c1CexReadings) false).2.Sun1 = "" :=
  ⟨rfl, rfl, rfl, by with_unfolding_all rfl, rfl, rfl⟩

/-- Witness for the amended C1 at a concrete 15-reading sequence. -/
theorem c1_all_slots_populated_witness :
      ((PopulateWeatherData (mkWinfo c1AllReadings) false).1.Temperature0 =
          parseFloatOr0 (mkReading "Thermometer" "1" "u").Value ∧
        (PopulateWeatherData (mkWinfo c1AllReadings) false).1.Temperature0 ≠ 0 ∧
        (PopulateWeatherData (mkWinfo c1AllReadings) false).2.Temperature0 =
          (mkReading "Thermometer" "1" "u").UnitSymbol ∧
        (PopulateWeatherData (mkWinfo c1AllReadings) false).2.Temperature0 ≠ "") ∧
      ((PopulateWeatherData (mkWinfo c1AllReadings) false).1.Temperature1 =
          parseFloatOr0 (mkReading "Dewpoint" "1" "u").Value ∧
        (PopulateWeatherData (mkWinfo c1AllReadings) false).1.Temperature1 ≠ 0 ∧
        (PopulateWeatherData (mkWinfo c1AllReadings) false).2.Temperature1 =
          (mkReading "Dewpoint" "1" "u").UnitSymbol ∧
        (PopulateWeatherData (mkWinfo c1AllReadings) false).2.Temperature1 ≠ "") ∧
      ((PopulateWeatherData (mkWinfo c1AllReadings) false).1.Temperature2 =
          parseFloatOr0 (mkReading "Wet Bulb Globe Temperature" "1" "u").Value ∧
        (PopulateWeatherData (mkWinfo c1AllReadings) false).1.Temperature2 ≠ 0 ∧
        (PopulateWeatherData (mkWinfo c1AllReadings) false).2.Temperature2 =
          (mkReading "Wet Bulb Globe Temperature" "1" "u").UnitSymbol ∧
        (PopulateWeatherData (mkWinfo c1AllReadings) false).2.Temperature2 ≠ "") ∧
      ((PopulateWeatherData (mkWinfo c1AllReadings) false).1.Temperature3 =
          parseFloatOr0 (mkReading "Wind Chill" "1" "u").Value ∧
        (PopulateWeatherData (mkWinfo c1AllReadings) false).1.Temperature3 ≠ 0 ∧
        (PopulateWeatherData (mkWinfo c1AllReadings) false).2.Temperature3 =
          (mkReading "Wind Chill" "1" "u").UnitSymbol ∧
        (PopulateWeatherData (mkWinfo c1AllReadings) false).2.Temperature3 ≠ "") ∧
      ((PopulateWeatherData (mkWinfo c1AllReadings) false).1.Temperature4 =
          parseFloatOr0 (mkReading "Heat Index" "1" "u").Value ∧
        (PopulateWeatherData (mkWinfo c1AllReadings) false).1.Temperature4 ≠ 0 ∧
        (PopulateWeatherData (mkWinfo c1AllReadings) false).2.Temperature4 =
          (mkReading "Heat Index" "1" "u").UnitSymbol ∧
        (PopulateWeatherData (mkWinfo c1AllReadings) false).2.Temperature4 ≠ "") ∧
      ((PopulateWeatherData (mkWinfo c1AllReadings) false).1.Humidity =
          parseFloatOr0 (mkReading "Hygrometer" "1" "u").Value ∧
        (PopulateWeatherData (mkWinfo c1AllReadings) false).1.Humidity ≠ 0 ∧
        (PopulateWeatherData (mkWinfo c1AllReadings) false).2.Humidity =
          (mkReading "Hygrometer" "1" "u").UnitSymbol ∧
        (PopulateWeatherData (mkWinfo c1AllReadings) false).2.Humidity ≠ "") ∧
      ((PopulateWeatherData (mkWinfo c1AllReadings) false).1.Windspeed0 =
          parseFloatOr0 (mkReading "Anemometer" "1" "u").Value ∧
        (PopulateWeatherData (mkWinfo c1AllReadings) false).1.Windspeed0 ≠ 0 ∧
        (PopulateWeatherData (mkWinfo c1AllReadings) false).2.Windspeed0 =
          (mkReading "Anemometer" "1" "u").UnitSymbol ∧
        (PopulateWeatherData (mkWinfo c1AllReadings) false).2.Windspeed0 ≠ "") ∧
      ((PopulateWeatherData (mkWinfo c1AllReadings) false).1.Windspeed1 =
          parseFloatOr0 (mkReading "10 Minute Wind Gust" "1" "u").Value ∧
        (PopulateWeatherData (mkWinfo c1AllReadings) false).1.Windspeed1 ≠ 0 ∧
        (PopulateWeatherData (mkWinfo c1AllReadings) false).2.Windspeed1 =
          (mkReading "10 Minute Wind Gust" "1" "u").UnitSymbol ∧
        (PopulateWeatherData (mkWinfo c1AllReadings) false).2.Windspeed1 ≠ "") ∧
      ((PopulateWeatherData (mkWinfo c1AllReadings) false).1.Windspeed2 =
          parseFloatOr0 (mkReading "Wind Vane" "1" "u").Value ∧
        (PopulateWeatherData (mkWinfo c1AllReadings) false).1.Windspeed2 ≠ 0 ∧
        (PopulateWeatherData (mkWinfo c1AllReadings) false).2.Windspeed2 =
          (mkReading "Wind Vane" "1" "u").UnitSymbol ∧
        (PopulateWeatherData (mkWinfo c1AllReadings) false).2.Windspeed2 ≠ "") ∧
      ((PopulateWeatherData (mkWinfo c1AllReadings) false).1.Pressure =
          parseFloatOr0 (mkReading "Barometer" "1" "u").Value ∧
        (PopulateWeatherData (mkWinfo c1AllReadings) false).1.Pressure ≠ 0 ∧
        (PopulateWeatherData (mkWinfo c1AllReadings) false).2.Pressure =
          (mkReading "Barometer" "1" "u").UnitSymbol ∧
        (PopulateWeatherData (mkWinfo c1AllReadings) false).2.Pressure ≠ "") ∧
      ((PopulateWeatherData (mkWinfo c1AllReadings) false).1.PressureTrend =
          (mkReading "Barometer Tendency" "1" "u").Value ∧
        (PopulateWeatherData (mkWinfo c1AllReadings) false).1.PressureTrend ≠ "" ∧
        (PopulateWeatherData (mkWinfo c1AllReadings) false).2.PressureTrend =
          (mkReading "Barometer Tendency" "1" "u").UnitSymbol ∧
        (PopulateWeatherData (mkWinfo c1AllReadings) false).2.PressureTrend ≠ "") ∧
      ((PopulateWeatherData (mkWinfo c1AllReadings) false).1.Rain0 =
          parseFloatOr0 (mkReading "Rain Gauge" "1" "u").Value ∧
        (PopulateWeatherData (mkWinfo c1AllReadings) false).1.Rain0 ≠ 0 ∧
        (PopulateWeatherData (mkWinfo c1AllReadings) false).2.Rain0 =
          (mkReading "Rain Gauge" "1" "u").UnitSymbol ∧
        (PopulateWeatherData (mkWinfo c1AllReadings) false).2.Rain0 ≠ "") ∧
      ((PopulateWeatherData (mkWinfo c1AllReadings) false).1.Rain1 =
          parseFloatOr0 (mkReading "Rain Rate" "1" "u").Value ∧
        (PopulateWeatherData (mkWinfo c1AllReadings) false).1.Rain1 ≠ 0 ∧
        (PopulateWeatherData (mkWinfo c1AllReadings) false).2.Rain1 =
          (mkReading "Rain Rate" "1" "u").UnitSymbol ∧
        (PopulateWeatherData (mkWinfo c1AllReadings) false).2.Rain1 ≠ "") ∧
      ((PopulateWeatherData (mkWinfo c1AllReadings) false).1.Sun0 =
          parseFloatOr0 (mkReading "Solar Radiation Sensor" "1" "u").Value ∧
        (PopulateWeatherData (mkWinfo c1AllReadings) false).1.Sun0 ≠ 0 ∧
        (PopulateWeatherData (mkWinfo c1AllReadings) false).2.Sun0 =
          (mkReading "Solar Radiation Sensor" "1" "u").UnitSymbol ∧
        (PopulateWeatherData (mkWinfo c1AllReadings) false).2.Sun0 ≠ "") ∧
      ((PopulateWeatherData (mkWinfo c1AllReadings) false).1.Sun1 =
          parseFloatOr0 (mkReading "UV Radiation Sensor" "1" "u").Value ∧
        (PopulateWeatherData (mkWinfo c1AllReadings) false).1.Sun1 ≠ 0 ∧
        (PopulateWeatherData (mkWinfo c1AllReadings) false).2.Sun1 =
          (mkReading "UV Radiation Sensor" "1" "u").UnitSymbol ∧
        (PopulateWeatherData (mkWinfo c1AllReadings) false).2.Sun1 ≠ "") :=
  c1_all_slots_populated (mkWinfo c1AllReadings) false
    (mkReading "Thermometer" "1" "u") rfl (by with_unfolding_all decide) (by decide)
    (mkReading "Dewpoint" "1" "u") rfl (by with_unfolding_all decide) (by decide)
    (mkReading "Wet Bulb Globe Temperature" "1" "u") rfl (by with_unfolding_all decide) (by decide)
    (mkReading "Wind Chill" "1" "u") rfl (by with_unfolding_all decide) (by decide)
    (mkReading "Heat Index" "1" "u") rfl (by with_unfolding_all decide) (by decide)
    (mkReading "Hygrometer" "1" "u") rfl (by with_unfolding_all decide) (by decide)
    (mkReading "Anemometer" "1" "u") rfl (by with_unfolding_all decide) (by decide)
    (mkReading "10 Minute Wind Gust" "1" "u") rfl (by with_unfolding_all decide) (by decide)
    (mkReading "Wind Vane" "1" "u") rfl (by with_unfolding_all decide) (by decide)
    (mkReading "Barometer" "1" "u") rfl (by with_unfolding_all decide) (by decide)
    (mkReading "Barometer Tendency" "1" "u") rfl (by with_unfolding_all decide) (by decide)
    (mkReading "Rain Gauge" "1" "u") rfl (by with_unfolding_all decide) (by decide)
    (mkReading "Rain Rate" "1" "u") rfl (by with_unfolding_all decide) (by decide)
    (mkReading "Solar Radiation Sensor" "1" "u") rfl (by with_unfolding_all decide) (by decide)
    (mkReading "UV Radiation Sensor" "1" "u") rfl (by with_unfolding_all decide) (by decide)

/-- Witness for C2: with two `Hygrometer` readings, the humidity slot pair
holds the second reading's value and unit. -/
theorem c2_last_write_wins_witness :
    (PopulateWeatherData (mkWinfo c2Readings) false).1.Humidity =
        parseFloatOr0 (mkReading "Hygrometer" "2" "b").Value ∧
      (PopulateWeatherData (mkWinfo c2Readings) false).2.Humidity =
        (mkReading "Hygrometer" "2" "b").UnitSymbol :=
  (c2_last_write_wins (mkWinfo c2Readings) false "Hygrometer"
      (mkReading "Hygrometer" "1" "a") (mkReading "Hygrometer" "2" "b")
      rfl).2.2.2.2.2.1 rfl

/-- Witness for C3 at a concrete unknown-label reading. -/
theorem c3_unknown_reading_ignored_witness :
    PopulateWeatherData
        ⟨{ mkRecord [] with
            RecordReadings := [] ++ mkReading "Bogus" "1" "u" :: [] },
          exStation⟩ false =
      PopulateWeatherData
        ⟨{ mkRecord [] with RecordReadings := [] ++ [] }, exStation⟩ false :=
  c3_unknown_reading_ignored exStation (mkRecord []) false [] []
    (mkReading "Bogus" "1" "u") (by decide)

/-- Witness for C9: with no readings at all, the thermometer slot pair stays
at its defaults. -/
theorem c9_absent_slot_default_witness :
    (PopulateWeatherData (mkWinfo []) false).1.Temperature0 = 0 ∧
      (PopulateWeatherData (mkWinfo []) false).2.Temperature0 = "" :=
  (c9_absent_slot_default (mkWinfo []) false "Thermometer" rfl).1 rfl

/-- Witness for C8 at a station whose coordinate strings fail to parse. -/
theorem c8_bad_coordinate_yields_zero_witness :
    (PopulateWeatherData ⟨mkRecord [], c8Station⟩ false).1.StationTopo = ⟨0, 0⟩ :=
  c8_bad_coordinate_yields_zero ⟨mkRecord [], c8Station⟩ false rfl rfl

/-- Witness for C4 at a version-4.0 config text. -/
theorem c4_newer_version_fatal_witness :
    (getConfigSettings umNone (some c4Content)).1 =
      ConfigOutcome.panicked
        ("Config version mismatch, " ++ "4.0" ++ " should be " ++
          configSettingsVersion) :=
  c4_newer_version_fatal umNone c4Content "4.0" (by with_unfolding_all rfl) rfl

/-- Witness for C5 at a version-2.0 config text whose parsed structure has
the zero location. -/
theorem c5_older_version_fallback_witness :
    (getConfigSettings (fun _ => some c5Cfg) (some c5Content)).1 =
        ConfigOutcome.ok { c5Cfg with Me := ⟨40.7678, -73.9814⟩ } ∧
      (getConfigSettings (fun _ => some c5Cfg) (some c5Content)).2 ≠ [] :=
  c5_older_version_fallback (fun _ => some c5Cfg) c5Content "2.0" c5Cfg
    (by with_unfolding_all rfl) (by decide) rfl rfl rfl

/-- Witness for C6 at a version-3.0 config text. -/
theorem c6_exact_version_verbatim_witness :
    (getConfigSettings (fun _ => some c6Cfg) (some c6Content)).1 =
      ConfigOutcome.ok c6Cfg :=
  c6_exact_version_verbatim (fun _ => some c6Cfg) c6Content c6Cfg
    (by with_unfolding_all rfl) rfl

/-- Witness for C10 at a parsed location `(0, 5)`: only the latitude is
replaced by its fallback component. -/
theorem c10_componentwise_fallback_witness :
    (getConfigSettings (fun _ => some c10Cfg) (some c5Content)).1 =
      ConfigOutcome.ok { c10Cfg with Me := ⟨40.7678, 5⟩ } :=
  c10_componentwise_fallback (fun _ => some c10Cfg) c5Content "2.0" c10Cfg 5
    (by with_unfolding_all rfl) (by decide) rfl rfl rfl rfl (by decide)

/-- Witness for C7: with no readable candidate the resolver reports the
config-not-found open error. -/
theorem c7_probe_order_witness :
    (findConfigSettings umNone (some "/home/u") fsNone).1 =
      ConfigOutcome.openError :=
  (c7_probe_order umNone "/home/u" fsNone).1.mpr ⟨rfl, rfl, rfl⟩

end Weatherstem
